import Mathlib

/-!
Verification of the critterai `unity3d_nav_critterai` interop core
(nmgen-rcn / nav-rcn C++ sources) against its natural-language
specification.

Shallow embedding conventions used throughout this development:

* C `float` coordinate arithmetic is modelled over exact rationals; the
  tolerance constant `NMG_TOLERANCE = 0.0001f` is modelled as the exact
  rational 1/10000 (the spec names the tolerance as 1e-4).
* C arrays with stride 3 (vertex coordinate triples) are modelled as lists
  of triples; C arrays paired with an element count are modelled as lists,
  with the count argument kept where the source takes one.
* Byte buffers are modelled as `List Int` cells; multi-byte struct fields
  occupy the same number of cells as the C `sizeof` (MSVC x86 layout, the
  library's target ABI), with the field value in the first cell of its
  slot and zero padding cells after it.  `memcpy` reads are modelled by an
  explicit bounds-checked segment read that returns `none` on a read past
  the end of the buffer (C undefined behavior).
* Heap allocation is modelled by an allocation-attempt oracle so that
  out-of-memory paths are expressible; `rcFree` removes an allocation id
  from the live set and, exactly as in the C source, does not clear the
  struct field that held the pointer.
* Pointer-typed function parameters that the C entry points null-check are
  modelled as `Option`; parameters the relevant claims always supply are
  passed by value.
-/

namespace CritterAI

/-! ### Vertex deduplication (`PolyMeshDetailEx.cpp`) -/

/-- A vertex, the three cells `sourceVerts[i*3 .. i*3+2]` of the C flat
float array, modelled as an exact rational triple. -/
abbrev Vtx : Type := ℚ × ℚ × ℚ

/-- `NMG_TOLERANCE` from `NMGen.h`, the float constant `0.0001f`, modelled
as the exact rational named by the spec. -/
def NMG_TOLERANCE : ℚ := 1 / 10000

/-- `nmgSloppyEquals` from `NMGen.h`:
`!(b < a - NMG_TOLERANCE || b > a + NMG_TOLERANCE)`. -/
def nmgSloppyEquals (a b : ℚ) : Bool :=
  !(decide (b < a - NMG_TOLERANCE) || decide (b > a + NMG_TOLERANCE))

/-- The three-axis conjunction used by the inner scan of
`removeDuplicateVerts`: component-wise `nmgSloppyEquals` of a source
vertex against an already-emitted result vertex. -/
def sloppyVertEq (src res : Vtx) : Bool :=
  nmgSloppyEquals src.1 res.1 && nmgSloppyEquals src.2.1 res.2.1
    && nmgSloppyEquals src.2.2 res.2.2

/-- The inner `for (j = 0; j < resultCount; j++)` scan of
`removeDuplicateVerts`: first emitted vertex sloppy-equal to `v`, scanning
in emission order, returning its index (offset by the accumulator `j`). -/
def scanForMatch (v : Vtx) : List Vtx → Nat → Option Nat
  | [], _ => none
  | w :: ws, j => if sloppyVertEq v w then some j else scanForMatch v ws (j + 1)

/-- The outer loop of `removeDuplicateVerts`: processes source vertices in
order, carrying the emitted unique vertices and the index map built so
far.  A vertex with no match among the emitted vertices is appended and
mapped to the next fresh index (`index == resultCount` in the source). -/
def rdvGo : List Vtx → List Vtx → List Nat → List Vtx × List Nat
  | [], res, map => (res, map)
  | v :: rest, res, map =>
      match scanForMatch v res 0 with
      | some j => rdvGo rest res (map ++ [j])
      | none => rdvGo rest (res ++ [v]) (map ++ [res.length])

/-- `removeDuplicateVerts` from `PolyMeshDetailEx.cpp`: returns the
compacted unique-vertex array and the source-index-to-compacted-index
map (the C out-parameters `resultVerts` / `indicesMap`, with the returned
`resultCount` being the length of the first component). -/
def removeDuplicateVerts (src : List Vtx) : List Vtx × List Nat :=
  rdvGo src [] []

/-! ### Detail mesh flattening (`rcpdFlattenMesh`) -/

/-- `rcPolyMeshDetail` as consumed by `rcpdFlattenMesh`: submesh table
(stride 4: vertex base, vertex count, triangle base, triangle count),
vertices, and triangle list (stride 4: three local indices plus a flags
byte). -/
structure rcPolyMeshDetail where
  nmeshes : Nat
  meshes : List Nat
  nverts : Nat
  verts : List Vtx
  ntris : Nat
  tris : List Nat

/-- One triangle's three index writes in the remap loop of
`rcpdFlattenMesh`: `tris[pCurrentTri] = vertMap[vBase + tri[i]]`. -/
def flattenWriteTri (dm : rcPolyMeshDetail) (vertMap : List Nat)
    (vBase tBase iTri : Nat) (tris : List Int) (pCur : Nat) : List Int × Nat :=
  let t0 := dm.tris.getD ((tBase + iTri) * 4 + 0) 0
  let t1 := dm.tris.getD ((tBase + iTri) * 4 + 1) 0
  let t2 := dm.tris.getD ((tBase + iTri) * 4 + 2) 0
  let tris := tris.set pCur ((vertMap.getD (vBase + t0) 0 : Nat) : Int)
  let tris := tris.set (pCur + 1) ((vertMap.getD (vBase + t1) 0 : Nat) : Int)
  let tris := tris.set (pCur + 2) ((vertMap.getD (vBase + t2) 0 : Nat) : Int)
  (tris, pCur + 3)

/-- The inner `for (iTri ...)` loop of the remap phase, by remaining
triangle count. -/
def flattenTriLoop (dm : rcPolyMeshDetail) (vertMap : List Nat)
    (vBase tBase : Nat) : Nat → Nat → List Int → Nat → List Int × Nat
  | 0, _, tris, pCur => (tris, pCur)
  | n + 1, iTri, tris, pCur =>
      let (tris, pCur) := flattenWriteTri dm vertMap vBase tBase iTri tris pCur
      flattenTriLoop dm vertMap vBase tBase n (iTri + 1) tris pCur

/-- The outer `for (iMesh ...)` loop of the remap phase, by remaining
submesh count. -/
def flattenMeshLoop (dm : rcPolyMeshDetail) (vertMap : List Nat) :
    Nat → Nat → List Int → Nat → List Int × Nat
  | 0, _, tris, pCur => (tris, pCur)
  | n + 1, iMesh, tris, pCur =>
      let vBase := dm.meshes.getD (iMesh * 4 + 0) 0
      let tBase := dm.meshes.getD (iMesh * 4 + 2) 0
      let tCount := dm.meshes.getD (iMesh * 4 + 3) 0
      let (tris, pCur) := flattenTriLoop dm vertMap vBase tBase tCount 0 tris pCur
      flattenMeshLoop dm vertMap n (iMesh + 1) tris pCur

/-- `rcpdFlattenMesh` from `PolyMeshDetailEx.cpp`.  The caller-supplied
output state is passed in (`verts0`, `vertCount0`, `tris0`, `triCount0`)
and the final state of those four caller-visible locations is returned
together with the C return value, so that the no-partial-write behavior
of the failure paths is observable.  The pointer arguments the source
null-checks are assumed supplied. -/
def rcpdFlattenMesh (dm : rcPolyMeshDetail)
    (verts0 : List Vtx) (vertCount0 : Int) (vertsSize : Int)
    (tris0 : List Int) (triCount0 : Int) (trisSize : Int) :
    Bool × List Vtx × Int × List Int × Int :=
  if trisSize < (dm.ntris : Int) then
    (false, verts0, vertCount0, tris0, triCount0)
  else
    let rdv := removeDuplicateVerts (dm.verts.take dm.nverts)
    let uniqueVerts := rdv.1
    let vertMap := rdv.2
    let resultVertCount := uniqueVerts.length
    if vertsSize < (resultVertCount : Int) then
      (false, verts0, vertCount0, tris0, triCount0)
    else
      let verts1 := uniqueVerts ++ verts0.drop resultVertCount
      let w := flattenMeshLoop dm vertMap dm.nmeshes 0 tris0 0
      (true, verts1, (resultVertCount : Int), w.1, (dm.ntris : Int))

/-! ### Byte buffers and the allocation model -/

/-- One cell of a modelled byte buffer.  Multi-byte C fields occupy as
many cells as their `sizeof`, with the value in the first cell. -/
abbrev Byte : Type := Int

/-- Bounds-checked `memcpy`-read of `len` bytes starting at `pos`:
`none` models a read past the end of the provided buffer (undefined
behavior in the C source). -/
def readBytesI (data : List Byte) (pos len : Int) : Option (List Byte) :=
  if 0 ≤ pos ∧ 0 ≤ len ∧ pos + len ≤ (data.length : Int) then
    some ((data.drop pos.toNat).take len.toNat)
  else none

/-- A 4-byte ("one int") field slot: value cell plus three padding
cells. -/
def word4 (v : Int) : List Byte := [v, 0, 0, 0]

/-- The allocator state shared by `rcAlloc`/`dtAlloc` call sites.
`failMask` is the out-of-memory oracle: attempt number `n` fails iff
`failMask n` is true.  `live` maps allocation ids to their current byte
contents (freshly allocated memory is modelled as zero-filled; every
array the embedded code observes is fully overwritten before any read,
so the choice is unobservable). -/
structure Heap where
  nextId : Nat
  live : List (Nat × List Byte)
  failMask : Nat → Bool
  attempts : Nat

/-- Allocation attempt: returns the new id (or `none` for an
out-of-memory failure per the oracle) and the updated heap. -/
def halloc (h : Heap) (size : Int) : Option Nat × Heap :=
  if h.failMask h.attempts then
    (none, { h with attempts := h.attempts + 1 })
  else
    (some h.nextId,
      { h with
        nextId := h.nextId + 1
        live := (h.nextId, List.replicate size.toNat 0) :: h.live
        attempts := h.attempts + 1 })

/-- Remove the allocation with id `ida` from a live list. -/
def liveRemove (l : List (Nat × List Byte)) (ida : Nat) : List (Nat × List Byte) :=
  l.filter (fun p => p.1 ≠ ida)

/-- `rcFree` / `dtFree`: a null pointer is a no-op, otherwise the
allocation leaves the live set.  The caller's struct field that held the
pointer is not touched (exactly as in the C source). -/
def hfree (h : Heap) (ptr : Option Nat) : Heap :=
  match ptr with
  | none => h
  | some ida => { h with live := liveRemove h.live ida }

/-- The bytes currently stored at allocation `ida`, if live. -/
def heapGet (h : Heap) (ida : Nat) : Option (List Byte) :=
  (h.live.find? (fun p => p.1 = ida)).map (fun p => p.2)

/-- Overwrite the contents of a live allocation (a `memcpy` into the
whole array). -/
def heapSet (h : Heap) (ida : Nat) (content : List Byte) : Heap :=
  { h with
    live := h.live.map (fun p => if p.1 = ida then (p.1, content) else p) }

/-- `memcpy` of `len` bytes out of the array behind pointer `ptr`:
`none` models dereferencing a null or dangling pointer or reading past
the allocation's end. -/
def readContent (h : Heap) (ptr : Option Nat) (len : Int) : Option (List Byte) :=
  match ptr with
  | none => none
  | some ida =>
      match heapGet h ida with
      | none => none
      | some c => if 0 ≤ len ∧ len ≤ (c.length : Int) then some (c.take len.toNat) else none

/-- Allocation ids are fresh: every live id is below `nextId`. -/
def HeapWF (h : Heap) : Prop :=
  ∀ p ∈ h.live, p.1 < h.nextId

/-! ### Detail mesh record serialization (`PolyMeshDetailEx.cpp`) -/

/-- `NMG_ALLOC_TYPE_EXTERN` from `NMGen.h` (value 0): memory allocated
externally, never freed by this library. -/
def NMG_ALLOC_TYPE_EXTERNAL : Int := 0

/-- `NMG_ALLOC_TYPE_LOCAL` from `NMGen.h` (value 1): memory allocated
locally, freeable locally. -/
def NMG_ALLOC_TYPE_LOCAL : Int := 1

/-- `NMG_POLYMESHDETAIL_VERSION` from `PolyMeshDetailEx.cpp`. -/
def NMG_POLYMESHDETAIL_VERSION : Int := 1

/-- `nmgPolyMeshDetail`: the `rcPolyMeshDetail` fields plus the
capacity/ownership extension.  Array fields hold allocation ids (C
pointers); counts are C `int`s. -/
structure nmgPolyMeshDetail where
  nmeshes : Int
  nverts : Int
  ntris : Int
  maxmeshes : Int
  maxverts : Int
  maxtris : Int
  meshes : Option Nat
  tris : Option Nat
  verts : Option Nat
  resourcetype : Int
deriving DecidableEq

/-- `nmgPolyMeshDetailHeader` (6 ints then a long; `sizeof` is 28 on the
target ABI). -/
structure nmgPolyMeshDetailHeader where
  nmeshes : Int
  nverts : Int
  ntris : Int
  maxmeshes : Int
  maxverts : Int
  maxtris : Int
  version : Int
deriving DecidableEq

/-- `sizeof(nmgPolyMeshDetailHeader)`. -/
def DETAIL_HEADER_SIZE : Int := 28

def encodeDetailHeader (hd : nmgPolyMeshDetailHeader) : List Byte :=
  word4 hd.nmeshes ++ word4 hd.nverts ++ word4 hd.ntris ++ word4 hd.maxmeshes
    ++ word4 hd.maxverts ++ word4 hd.maxtris ++ word4 hd.version

def decodeDetailHeader (b : List Byte) : nmgPolyMeshDetailHeader :=
  ⟨b.getD 0 0, b.getD 4 0, b.getD 8 0, b.getD 12 0, b.getD 16 0, b.getD 20 0,
    b.getD 24 0⟩

/-- `rcpdFreeMeshData`: frees the three array allocations when the
record is locally owned.  The source neither clears the pointer fields
nor resets any count — the record value is returned unchanged. -/
def rcpdFreeMeshData (mesh : Option nmgPolyMeshDetail) (h : Heap) :
    Bool × Option nmgPolyMeshDetail × Heap :=
  match mesh with
  | none => (false, none, h)
  | some m =>
      if m.resourcetype = NMG_ALLOC_TYPE_LOCAL then
        (true, some m, hfree (hfree (hfree h m.meshes) m.verts) m.tris)
      else
        (false, some m, h)

/-- Serialized sizes computed by `rcpdGetSerializedData` /
`rcpdBuildFromMeshData` from a (mesh, vert, tri) element-count triple. -/
def detailMeshSize (meshCount : Int) : Int := 4 * (meshCount * 4)

def detailVertSize (vertCount : Int) : Int := 4 * (vertCount * 3)

def detailTrisSize (triCount : Int) : Int := 1 * (triCount * 4)

/-- `rcpdGetSerializedData`: packs header then `meshes`, `tris`, `verts`
arrays into one allocated buffer.  Outer `none` is undefined behavior
(reading a null/short source array).  The inner result carries the C
return value, the heap, and the `(resultData, dataSize)` out-parameters
(`none` when the call failed before producing them). -/
def rcpdGetSerializedData (mesh : Option nmgPolyMeshDetail) (includeBuffer : Bool)
    (h : Heap) : Option (Bool × Heap × Option (List Byte × Int)) :=
  match mesh with
  | none => some (false, h, none)
  | some m =>
      if m.maxmeshes = 0 then some (false, h, none)
      else
        let meshCount := if includeBuffer then m.maxmeshes else m.nmeshes
        let vertCount := if includeBuffer then m.maxverts else m.nverts
        let triCount := if includeBuffer then m.maxtris else m.ntris
        let hdr : nmgPolyMeshDetailHeader :=
          ⟨m.nmeshes, m.nverts, m.ntris, meshCount, vertCount, triCount,
            NMG_POLYMESHDETAIL_VERSION⟩
        let meshSize := detailMeshSize meshCount
        let vertSize := detailVertSize vertCount
        let trisSize := detailTrisSize triCount
        let totalDataSize := DETAIL_HEADER_SIZE + vertSize + meshSize + trisSize
        match halloc h totalDataSize with
        | (none, h1) => some (false, h1, none)
        | (some ida, h1) =>
            match readContent h1 m.meshes meshSize with
            | none => none
            | some mc =>
                match readContent h1 m.tris trisSize with
                | none => none
                | some tc =>
                    match readContent h1 m.verts vertSize with
                    | none => none
                    | some vc =>
                        let content := encodeDetailHeader hdr ++ mc ++ tc ++ vc
                        some (true, heapSet h1 ida content, some (content, totalDataSize))

/-- `rcpdBuildFromMeshData`: validates, allocates the three arrays (with
rollback through `rcpdFreeMeshData` on an allocation failure), then
populates the record from the buffer.  Outer `none` is undefined
behavior (a read past the end of `meshData`).  The header-to-record
`memcpy` of the first six ints is modelled field by field. -/
def rcpdBuildFromMeshData (meshData : List Byte) (dataSize : Int)
    (resultMesh : Option nmgPolyMeshDetail) (h : Heap) :
    Option (Bool × Option nmgPolyMeshDetail × Heap) :=
  match resultMesh with
  | none => some (false, none, h)
  | some r =>
      if r.maxmeshes ≠ 0 ∨ dataSize < DETAIL_HEADER_SIZE then some (false, some r, h)
      else
        match readBytesI meshData 0 DETAIL_HEADER_SIZE with
        | none => none
        | some hb =>
            let hdr := decodeDetailHeader hb
            if hdr.version ≠ NMG_POLYMESHDETAIL_VERSION then some (false, some r, h)
            else
              let vertSize := detailVertSize hdr.maxverts
              let meshSize := detailMeshSize hdr.maxmeshes
              let trisSize := detailTrisSize hdr.maxtris
              let totalDataSize := DETAIL_HEADER_SIZE + vertSize + meshSize + trisSize
              if dataSize < totalDataSize then some (false, some r, h)
              else
                let r := { r with resourcetype := NMG_ALLOC_TYPE_LOCAL }
                let (om, h1) := halloc h meshSize
                let r := { r with meshes := om }
                match om with
                | none =>
                    let fr := rcpdFreeMeshData (some r) h1
                    some (false, fr.2.1, fr.2.2)
                | some _ =>
                    let (ot, h2) := halloc h1 trisSize
                    let r := { r with tris := ot }
                    match ot with
                    | none =>
                        let fr := rcpdFreeMeshData (some r) h2
                        some (false, fr.2.1, fr.2.2)
                    | some _ =>
                        let (ov, h3) := halloc h2 vertSize
                        let r := { r with verts := ov }
                        match ov with
                        | none =>
                            let fr := rcpdFreeMeshData (some r) h3
                            some (false, fr.2.1, fr.2.2)
                        | some _ =>
                            let r := { r with
                              nmeshes := hdr.nmeshes
                              nverts := hdr.nverts
                              ntris := hdr.ntris
                              maxmeshes := hdr.maxmeshes
                              maxverts := hdr.maxverts
                              maxtris := hdr.maxtris }
                            match readBytesI meshData DETAIL_HEADER_SIZE meshSize with
                            | none => none
                            | some mseg =>
                                match readBytesI meshData (DETAIL_HEADER_SIZE + meshSize) trisSize with
                                | none => none
                                | some tseg =>
                                    match readBytesI meshData (DETAIL_HEADER_SIZE + meshSize + trisSize) vertSize with
                                    | none => none
                                    | some vseg =>
                                        let h4 := heapSet h3 (r.meshes.getD 0) mseg
                                        let h5 := heapSet h4 (r.tris.getD 0) tseg
                                        let h6 := heapSet h5 (r.verts.getD 0) vseg
                                        some (true, some r, h6)

/-! ### Polygon mesh record deserialization (`PolyMeshEx.cpp`) -/

/-- `NMG_POLYMESH_VERSION` from `PolyMeshEx.cpp`. -/
def NMG_POLYMESH_VERSION : Int := 1

/-- `rcPolyMesh` (Recast): five array pointers and the scalar fields.
Float-valued fields (`bmin`, `bmax`, `cs`, `ch`) are opaque cells. -/
structure rcPolyMesh where
  nverts : Int
  npolys : Int
  maxpolys : Int
  nvp : Int
  bmin0 : Int
  bmin1 : Int
  bmin2 : Int
  bmax0 : Int
  bmax1 : Int
  bmax2 : Int
  cs : Int
  ch : Int
  borderSize : Int
  verts : Option Nat
  polys : Option Nat
  regs : Option Nat
  flags : Option Nat
  areas : Option Nat
deriving DecidableEq

/-- `nmgPolyMeshHeader`: the `rcPolyMesh` scalar block, then `maxverts`,
the three walkable parameters, and the version (`sizeof` is 72 on the
target ABI). -/
structure nmgPolyMeshHeader where
  nverts : Int
  npolys : Int
  maxpolys : Int
  nvp : Int
  bmin0 : Int
  bmin1 : Int
  bmin2 : Int
  bmax0 : Int
  bmax1 : Int
  bmax2 : Int
  cs : Int
  ch : Int
  borderSize : Int
  maxverts : Int
  walkableHeight : Int
  walkableRadius : Int
  walkableStep : Int
  version : Int
deriving DecidableEq

/-- `sizeof(nmgPolyMeshHeader)`. -/
def POLY_HEADER_SIZE : Int := 72

def encodePolyHeader (hd : nmgPolyMeshHeader) : List Byte :=
  word4 hd.nverts ++ word4 hd.npolys ++ word4 hd.maxpolys ++ word4 hd.nvp
    ++ word4 hd.bmin0 ++ word4 hd.bmin1 ++ word4 hd.bmin2
    ++ word4 hd.bmax0 ++ word4 hd.bmax1 ++ word4 hd.bmax2
    ++ word4 hd.cs ++ word4 hd.ch ++ word4 hd.borderSize ++ word4 hd.maxverts
    ++ word4 hd.walkableHeight ++ word4 hd.walkableRadius ++ word4 hd.walkableStep
    ++ word4 hd.version

def decodePolyHeader (b : List Byte) : nmgPolyMeshHeader :=
  ⟨b.getD 0 0, b.getD 4 0, b.getD 8 0, b.getD 12 0, b.getD 16 0, b.getD 20 0,
    b.getD 24 0, b.getD 28 0, b.getD 32 0, b.getD 36 0, b.getD 40 0, b.getD 44 0,
    b.getD 48 0, b.getD 52 0, b.getD 56 0, b.getD 60 0, b.getD 64 0, b.getD 68 0⟩

/-- `rcpmFreeMeshData`: frees all five arrays, nulls the pointer fields
and zeroes every scalar field (including the `memset` of
`bmin`/`bmax`). -/
def rcpmFreeMeshData (mesh : Option rcPolyMesh) (h : Heap) :
    Bool × Option rcPolyMesh × Heap :=
  match mesh with
  | none => (false, none, h)
  | some m =>
      let h := hfree (hfree (hfree (hfree (hfree h m.polys) m.verts) m.regs) m.areas) m.flags
      (true, some ⟨0, 0, 0, 0, 0, 0, 0, 0, 0, 0, 0, 0, 0, none, none, none, none, none⟩, h)

/-- Serialized sizes computed by `rcpmBuildSerializedData` from the
header fields. -/
def polyVertSize (vertCount : Int) : Int := 2 * (vertCount * 3)

def polyPolySize (polyCount nvp : Int) : Int := 2 * (polyCount * 2 * nvp)

def polyRegionFlagSize (polyCount : Int) : Int := 2 * polyCount

def polyAreaSize (polyCount : Int) : Int := 1 * polyCount

/-- `rcpmBuildSerializedData`: validates, allocates the five arrays (with
rollback through `rcpmFreeMeshData` on an allocation failure), then
populates the record and the four out-parameters.  Outer `none` is
undefined behavior (a read past the end of `meshData`).  The source's
56-byte header-to-record `memcpy` also writes 4 bytes past the last
`rcPolyMesh` scalar field (`borderSize`); those bytes land outside every
modelled field and are dropped. -/
def rcpmBuildSerializedData (meshData : List Byte) (dataSize : Int)
    (resultMesh : Option rcPolyMesh) (h : Heap) :
    Option (Bool × Option rcPolyMesh × Heap × Option (Int × Int × Int × Int)) :=
  match resultMesh with
  | none => some (false, none, h, none)
  | some r =>
      if r.polys ≠ none ∨ dataSize < POLY_HEADER_SIZE then some (false, some r, h, none)
      else
        match readBytesI meshData 0 POLY_HEADER_SIZE with
        | none => none
        | some hb =>
            let hdr := decodePolyHeader hb
            if hdr.version ≠ NMG_POLYMESH_VERSION then some (false, some r, h, none)
            else
              let vertSize := polyVertSize hdr.maxverts
              let polySize := polyPolySize hdr.maxpolys hdr.nvp
              let regionFlagSize := polyRegionFlagSize hdr.maxpolys
              let areaSize := polyAreaSize hdr.maxpolys
              let totalDataSize := POLY_HEADER_SIZE + vertSize + polySize
                + 2 * regionFlagSize + areaSize
              if dataSize < totalDataSize then some (false, some r, h, none)
              else
                let (ov, h1) := halloc h vertSize
                let r := { r with verts := ov }
                match ov with
                | none =>
                    let fr := rcpmFreeMeshData (some r) h1
                    some (false, fr.2.1, fr.2.2, none)
                | some _ =>
                    let (op, h2) := halloc h1 polySize
                    let r := { r with polys := op }
                    match op with
                    | none =>
                        let fr := rcpmFreeMeshData (some r) h2
                        some (false, fr.2.1, fr.2.2, none)
                    | some _ =>
                        let (og, h3) := halloc h2 regionFlagSize
                        let r := { r with regs := og }
                        match og with
                        | none =>
                            let fr := rcpmFreeMeshData (some r) h3
                            some (false, fr.2.1, fr.2.2, none)
                        | some _ =>
                            let (of1, h4) := halloc h3 regionFlagSize
                            let r := { r with flags := of1 }
                            match of1 with
                            | none =>
                                let fr := rcpmFreeMeshData (some r) h4
                                some (false, fr.2.1, fr.2.2, none)
                            | some _ =>
                                let (oa, h5) := halloc h4 areaSize
                                let r := { r with areas := oa }
                                match oa with
                                | none =>
                                    let fr := rcpmFreeMeshData (some r) h5
                                    some (false, fr.2.1, fr.2.2, none)
                                | some _ =>
                                    let r := { r with
                                      nverts := hdr.nverts
                                      npolys := hdr.npolys
                                      maxpolys := hdr.maxpolys
                                      nvp := hdr.nvp
                                      bmin0 := hdr.bmin0
                                      bmin1 := hdr.bmin1
                                      bmin2 := hdr.bmin2
                                      bmax0 := hdr.bmax0
                                      bmax1 := hdr.bmax1
                                      bmax2 := hdr.bmax2
                                      cs := hdr.cs
                                      ch := hdr.ch
                                      borderSize := hdr.borderSize }
                                    match readBytesI meshData POLY_HEADER_SIZE vertSize with
                                    | none => none
                                    | some vseg =>
                                        match readBytesI meshData (POLY_HEADER_SIZE + vertSize) polySize with
                                        | none => none
                                        | some pseg =>
                                            match readBytesI meshData (POLY_HEADER_SIZE + vertSize + polySize) regionFlagSize with
                                            | none => none
                                            | some gseg =>
                                                match readBytesI meshData (POLY_HEADER_SIZE + vertSize + polySize + regionFlagSize) regionFlagSize with
                                                | none => none
                                                | some fseg =>
                                                    match readBytesI meshData (POLY_HEADER_SIZE + vertSize + polySize + 2 * regionFlagSize) areaSize with
                                                    | none => none
                                                    | some aseg =>
                                                        let h6 := heapSet h5 (r.verts.getD 0) vseg
                                                        let h7 := heapSet h6 (r.polys.getD 0) pseg
                                                        let h8 := heapSet h7 (r.regs.getD 0) gseg
                                                        let h9 := heapSet h8 (r.flags.getD 0) fseg
                                                        let h10 := heapSet h9 (r.areas.getD 0) aseg
                                                        some (true, some r, h10,
                                                          some (hdr.maxverts, hdr.walkableHeight,
                                                            hdr.walkableRadius, hdr.walkableStep))

/-! ### Detour statuses (`DetourStatus.h`) -/

/-- `dtStatus` values are bit masks over `Nat`. -/
abbrev dtStatus : Type := Nat

def DT_SUCCESS : dtStatus := 2 ^ 30

def DT_FAILURE : dtStatus := 2 ^ 31

def DT_WRONG_VERSION : dtStatus := 2

def DT_OUT_OF_MEMORY : dtStatus := 4

def DT_INVALID_PARAM : dtStatus := 8

def dtStatusSucceed (s : dtStatus) : Bool := s.land DT_SUCCESS ≠ 0

def dtStatusFailed (s : dtStatus) : Bool := s.land DT_FAILURE ≠ 0

/-! ### The navigation-mesh tile container

The `dtNavMesh` class itself is the external Detour collaborator (spec
section 6: "allocate an empty tile container from parameters", "insert a
tile payload into a container, returning a reference or failure").  It
is modelled from the spec as a parameter block plus a fixed array of
tile slots; a tile reference is the opaque nonzero handle `slot + 1`. -/

/-- `dtNavMeshParams`: origin (3 floats, opaque cells), tile
width/height (floats, opaque cells), `maxTiles`, `maxPolys`. -/
structure dtNavMeshParams where
  orig0 : Int
  orig1 : Int
  orig2 : Int
  tileWidth : Int
  tileHeight : Int
  maxTiles : Int
  maxPolys : Int
deriving DecidableEq

/-- Modelled from the spec: a tile slot of the external container.  A
live slot has an internal header and a nonzero-length payload
(`tile->header` / `tile->dataSize` in the liveness tests of the
source). -/
structure dtMeshTile where
  hasHeader : Bool
  data : List Byte
deriving DecidableEq

/-- Modelled from the spec: the external tile container — parameters and
`maxTiles` slots. -/
structure dtNavMesh where
  params : dtNavMeshParams
  tiles : List (Option dtMeshTile)
deriving DecidableEq

/-- The liveness test `tile && tile->header && tile->dataSize` used by
the pack loops. -/
def tileLive (ot : Option dtMeshTile) : Bool :=
  match ot with
  | none => false
  | some t => t.hasHeader && t.data.length ≠ 0

/-- Modelled from the spec: `dtNavMesh::getTileRef` — the opaque nonzero
reference of the tile in slot `i` is `i + 1`. -/
def slotTileRef (i : Nat) : Int := (i : Int) + 1

/-- Modelled from the spec: `dtNavMesh::getTileByRef`. -/
def getTileByRef (m : dtNavMesh) (ref : Int) : Option dtMeshTile :=
  if 1 ≤ ref ∧ ref ≤ (m.tiles.length : Int) then
    m.tiles.getD (ref - 1).toNat none
  else none

/-- Modelled from the spec: `dtNavMesh::addTile` with an explicit
`lastRef` — inserts the payload at the slot encoded by the reference,
failing (per the `ok` oracle, or on an invalid/occupied slot) without
mutating the container. -/
def meshAddTile (m : dtNavMesh) (payload : List Byte) (lastRef : Int) (ok : Bool) :
    dtStatus × dtNavMesh :=
  if ok ∧ 1 ≤ lastRef ∧ lastRef ≤ (m.tiles.length : Int)
      ∧ m.tiles.getD (lastRef - 1).toNat none = none then
    (DT_SUCCESS, ⟨m.params, m.tiles.set (lastRef - 1).toNat (some ⟨true, payload⟩)⟩)
  else (DT_FAILURE, m)

/-! ### Archive pack/unpack (`DetourNavMeshBuildEx.cpp`) -/

/-- `RCN_NAVMESH_VERSION` from `DetourNavMeshBuildEx.cpp`. -/
def RCN_NAVMESH_VERSION : Int := 1

/-- `rcnNavMeshSetHeader` (`sizeof` is 36 on the target ABI: a 4-byte
long, a 4-byte int, and the 28-byte parameter block). -/
structure rcnNavMeshSetHeader where
  version : Int
  tileCount : Int
  params : dtNavMeshParams
deriving DecidableEq

def SET_HEADER_SIZE : Int := 36

def encodeParams (p : dtNavMeshParams) : List Byte :=
  word4 p.orig0 ++ word4 p.orig1 ++ word4 p.orig2 ++ word4 p.tileWidth
    ++ word4 p.tileHeight ++ word4 p.maxTiles ++ word4 p.maxPolys

def encodeSetHeader (hd : rcnNavMeshSetHeader) : List Byte :=
  word4 hd.version ++ word4 hd.tileCount ++ encodeParams hd.params

def decodeSetHeader (b : List Byte) : rcnNavMeshSetHeader :=
  ⟨b.getD 0 0, b.getD 4 0,
    ⟨b.getD 8 0, b.getD 12 0, b.getD 16 0, b.getD 20 0, b.getD 24 0, b.getD 28 0,
      b.getD 32 0⟩⟩

/-- `rcnNavMeshTileHeader` (`sizeof` is 16 on the target ABI: an 8-byte
`dtTileRef`, a 4-byte int, 4 bytes tail padding). -/
structure rcnNavMeshTileHeader where
  tileRef : Int
  dataSize : Int
deriving DecidableEq

def TILE_HEADER_SIZE : Int := 16

def encodeTileHeader (hd : rcnNavMeshTileHeader) : List Byte :=
  [hd.tileRef, 0, 0, 0, 0, 0, 0, 0] ++ word4 hd.dataSize ++ [0, 0, 0, 0]

def decodeTileHeader (b : List Byte) : rcnNavMeshTileHeader :=
  ⟨b.getD 0 0, b.getD 8 0⟩

/-- The second loop of `dtnmGetNavMeshRawData`: walks every slot and
stores the live tile's record at `tileHeaders[i]`, where `i` is the SLOT
index but the array only has `tileCount` elements.  A store at an index
at or beyond the array length is an out-of-bounds write — undefined
behavior, modelled as `none`. -/
def packHeadersLoop : List (Option dtMeshTile) → Nat →
    List (Option rcnNavMeshTileHeader) → Option (List (Option rcnNavMeshTileHeader))
  | [], _, ths => some ths
  | ot :: rest, i, ths =>
      if tileLive ot then
        if i < ths.length then
          match ot with
          | some t =>
              packHeadersLoop rest (i + 1)
                (ths.set i (some ⟨slotTileRef i, (t.data.length : Int)⟩))
          | none => none
        else none
      else packHeadersLoop rest (i + 1) ths

/-- The third loop of `dtnmGetNavMeshRawData`: emits, for each of the
first `tileCount` entries of `tileHeaders`, the record followed by the
payload of the tile fetched by `getTileByRef`.  Reading an entry the
second loop never stored is a read of uninitialized heap memory, and a
null `getTileByRef` result makes the payload `memcpy` dereference null —
both undefined behavior, modelled as `none`. -/
def packWriteLoop (m : dtNavMesh) : List (Option rcnNavMeshTileHeader) →
    Option (List Byte)
  | [] => some []
  | none :: _ => none
  | some rec :: rest =>
      match getTileByRef m rec.tileRef with
      | none => none
      | some t =>
          if 0 ≤ rec.dataSize ∧ rec.dataSize ≤ (t.data.length : Int) then
            match packWriteLoop m rest with
            | none => none
            | some tail =>
                some (encodeTileHeader rec ++ t.data.take rec.dataSize.toNat ++ tail)
          else none

/-- The sum of the live tiles' payload sizes (the `totalDataSize`
accumulation of the second loop). -/
def liveSizeSum (tiles : List (Option dtMeshTile)) : Int :=
  tiles.foldl
    (fun acc ot =>
      match ot with
      | some t => if tileLive ot then acc + (t.data.length : Int) else acc
      | none => acc) 0

/-- `dtnmGetNavMeshRawData`: packs the container into one archive
buffer.  Result `none` is undefined behavior (the out-of-bounds
`tileHeaders` store or a read through an uninitialized record); the
inner value carries the `(resultData, dataSize)` out-parameters, with
a `none` buffer for the early null-argument exit. -/
def dtnmGetNavMeshRawData (navMesh : Option dtNavMesh) :
    Option (Option (List Byte) × Int) :=
  match navMesh with
  | none => some (none, 0)
  | some m =>
      let tileCount := (m.tiles.filter tileLive).length
      match packHeadersLoop m.tiles 0 (List.replicate tileCount none) with
      | none => none
      | some ths =>
          let totalDataSize := (liveSizeSum m.tiles) + SET_HEADER_SIZE
            + TILE_HEADER_SIZE * (tileCount : Int)
          match packWriteLoop m (ths.take tileCount) with
          | none => none
          | some body =>
              some (some (encodeSetHeader ⟨RCN_NAVMESH_VERSION, (tileCount : Int), m.params⟩
                ++ body), totalDataSize)

/-- The failure oracles consumed by `dtnmBuildDTNavMeshFromRaw`:
`allocMeshOk` is `dtAllocNavMesh`, `initOk` is `dtNavMesh::init`,
`tileAllocOk n` is the `n`-th `dtAlloc` attempt for a tile copy, and
`insertOk i` is the container's verdict on inserting the `i`-th tile. -/
structure UnpackOracle where
  allocMeshOk : Bool
  initOk : Bool
  tileAllocOk : Nat → Bool
  insertOk : Nat → Bool

/-- The `// Read tiles.` loop of `dtnmBuildDTNavMeshFromRaw`.  Arguments:
remaining iteration count, loop index `i`, read position, container,
allocation-attempt counter.  Returns `(status, success, mesh,
allocations, position)`; `none` is an out-of-bounds read of the input
buffer (undefined behavior — the source performs no bounds check against
`dataSize` inside this loop). -/
def readTileRecords (data : List Byte) (orc : UnpackOracle) :
    Nat → Nat → Int → dtNavMesh → Nat →
    Option (dtStatus × Bool × dtNavMesh × Nat × Int)
  | 0, _, pos, mesh, ac => some (DT_SUCCESS, true, mesh, ac, pos)
  | r + 1, i, pos, mesh, ac =>
      match readBytesI data pos TILE_HEADER_SIZE with
      | none => none
      | some hb =>
          let th := decodeTileHeader hb
          let pos := pos + TILE_HEADER_SIZE
          if th.tileRef = 0 ∨ th.dataSize = 0 then
            some (DT_FAILURE + DT_INVALID_PARAM, false, mesh, ac, pos)
          else if orc.tileAllocOk ac = false then
            some (DT_FAILURE + DT_OUT_OF_MEMORY, false, mesh, ac + 1, pos)
          else
            match readBytesI data pos th.dataSize with
            | none => none
            | some payload =>
                let pos := pos + th.dataSize
                let st := meshAddTile mesh payload th.tileRef (orc.insertOk i)
                if dtStatusFailed st.1 then
                  some (st.1, false, st.2, ac + 1, pos)
                else readTileRecords data orc r (i + 1) pos st.2 (ac + 1)

/-- `dtnmBuildDTNavMeshFromRaw`: unpacks an archive buffer into a fresh
container.  `pp0` is the prior value of the caller's `*ppNavMesh` (the
early invalid-parameter exit leaves it untouched).  The third result
component counts allocation attempts (`dtAllocNavMesh` plus tile
copies).  `none` is an out-of-bounds read (undefined behavior). -/
def dtnmBuildDTNavMeshFromRaw (data : List Byte) (dataSize : Int)
    (safeStorage : Bool) (pp0 : Option dtNavMesh) (orc : UnpackOracle) :
    Option (dtStatus × Option dtNavMesh × Nat) :=
  if dataSize < SET_HEADER_SIZE then some (DT_FAILURE + DT_INVALID_PARAM, pp0, 0)
  else
    match readBytesI data 0 SET_HEADER_SIZE with
    | none => none
    | some hb =>
        let hdr := decodeSetHeader hb
        if hdr.version ≠ RCN_NAVMESH_VERSION then
          some (DT_FAILURE + DT_WRONG_VERSION, none, 0)
        else if orc.allocMeshOk = false then
          some (DT_FAILURE + DT_OUT_OF_MEMORY, none, 1)
        else if orc.initOk = false then
          some (DT_FAILURE + DT_INVALID_PARAM, none, 1)
        else
          let mesh0 : dtNavMesh :=
            ⟨hdr.params, List.replicate hdr.params.maxTiles.toNat none⟩
          match readTileRecords data orc hdr.tileCount.toNat 0 SET_HEADER_SIZE mesh0 1 with
          | none => none
          | some (st, success, mesh, ac, _) =>
              if success then some (DT_SUCCESS, some mesh, ac)
              else some (st, none, ac)

/-! ### Tile data ownership (`DetourNavmeshEx.cpp`) -/

/-- `rcnTileData`: a tagged tile payload buffer.  `isOwned` true means
the container owns the bytes. -/
structure rcnTileData where
  data : Option (List Byte)
  dataSize : Int
  isOwned : Bool
deriving DecidableEq

/-- `dtnmFreeTileData`: releases the buffer unless it is null, empty or
container-owned; the release nulls the pointer and zeroes the size. -/
def dtnmFreeTileData (tileData : Option rcnTileData) : Option rcnTileData :=
  match tileData with
  | none => none
  | some t =>
      if t.data = none ∨ t.isOwned then some t
      else some { t with data := none, dataSize := 0 }

/-- `dtnmAddTile`: validates the arguments, hands the payload to the
container's `addTile`, and marks the buffer container-owned exactly when
the insert succeeded. -/
def dtnmAddTile (navMesh : Option dtNavMesh) (tileData : Option rcnTileData)
    (lastRef : Int) (insertOk : Bool) :
    dtStatus × Option rcnTileData × Option dtNavMesh :=
  match navMesh, tileData with
  | none, td => (DT_FAILURE + DT_INVALID_PARAM, td, none)
  | some m, none => (DT_FAILURE + DT_INVALID_PARAM, none, some m)
  | some m, some t =>
      match t.data with
      | none => (DT_FAILURE + DT_INVALID_PARAM, some t, some m)
      | some payload =>
          if t.dataSize < 1 ∨ t.isOwned then
            (DT_FAILURE + DT_INVALID_PARAM, some t, some m)
          else
            let st := meshAddTile m payload lastRef insertOk
            if dtStatusSucceed st.1 then
              (st.1, some { t with isOwned := true }, some st.2)
            else (st.1, some t, some st.2)

/-! ### Bounded message arena (`BuildContext.cpp`)

The pool is a 65536-byte member array that the constructor leaves
uninitialized; it is modelled as a write journal (newest write first),
so a position no write ever covered reads as `none` — an uninitialized
byte.  Message text is a length plus a total content function (the bytes
behind the C `const char*`). -/

/-- `nmgBuildContext::MAX_MESSAGES`. -/
def MAX_MESSAGES : Nat := 1024

/-- `nmgBuildContext::MESSAGE_POOL_SIZE`. -/
def MESSAGE_POOL_SIZE : Nat := 65536

/-- One contiguous write into the pool: start offset, length, and the
written bytes as a function of the offset into the write. -/
structure PoolSeg where
  start : Nat
  len : Nat
  content : Nat → Int

/-- The byte currently visible at pool position `p` (newest write wins);
`none` when no write ever covered `p` (uninitialized memory). -/
def poolByte : List PoolSeg → Nat → Option Int
  | [], _ => none
  | s :: rest, p =>
      if s.start ≤ p ∧ p < s.start + s.len then some (s.content (p - s.start))
      else poolByte rest p

/-- `nmgBuildContext` state: log switch, stored entry start offsets
(`mMessages`, oldest first — the stored `char*` entries as offsets into
the pool), pool write journal, and `mTextPoolSize`. -/
structure nmgBuildContext where
  logEnabled : Bool
  mMessages : List Nat
  pool : List PoolSeg
  mTextPoolSize : Nat

/-- A freshly constructed context: logging on, no messages, an
uninitialized pool. -/
def freshContext : nmgBuildContext := ⟨true, [], [], 0⟩

/-- `nmgBuildContext::getMessageCount` (`mMessageCount`). -/
def messageCount (ctx : nmgBuildContext) : Nat := ctx.mMessages.length

/-- `nmgBuildContext::doResetLog`: zeroes the count and the write
offset; pool bytes and the stale pointer table remain (the stale entries
are unobservable once the count is zero, so the model clears the
list). -/
def doResetLog (ctx : nmgBuildContext) : nmgBuildContext :=
  { ctx with mMessages := [], mTextPoolSize := 0 }

/-- `nmgBuildContext::doLog`: early-outs (disabled, empty text, full
table, less than one byte of pool left), then stores
`min(messageLength+1, remainingSpace-1)` bytes, overwrites the last of
them with NUL (`pEntry[realLength-1] = 0` — for a zero `realLength` this
is the byte just before the entry), advances the offset and records the
entry pointer. -/
def doLog (ctx : nmgBuildContext) (message : Nat → Int) (messageLength : Nat) :
    nmgBuildContext :=
  if !ctx.logEnabled ∨ messageLength = 0 ∨ MAX_MESSAGES ≤ messageCount ctx then ctx
  else
    let remainingSpace := MESSAGE_POOL_SIZE - ctx.mTextPoolSize
    if remainingSpace < 1 then ctx
    else
      let realLength := min (messageLength + 1) (remainingSpace - 1)
      let pool := PoolSeg.mk ctx.mTextPoolSize realLength message :: ctx.pool
      let pool := PoolSeg.mk (ctx.mTextPoolSize + realLength - 1) 1 (fun _ => 0) :: pool
      { ctx with
        mMessages := ctx.mMessages ++ [ctx.mTextPoolSize]
        pool := pool
        mTextPoolSize := ctx.mTextPoolSize + realLength }

/-- A log-or-reset step, for quantifying over operation sequences. -/
inductive LogOp : Type
  | log (content : Nat → Int) (messageLength : Nat)
  | reset

/-- Run a sequence of operations on a context. -/
def runLogOps (ctx : nmgBuildContext) : List LogOp → nmgBuildContext
  | [] => ctx
  | LogOp.log c n :: rest => runLogOps (doLog ctx c n) rest
  | LogOp.reset :: rest => runLogOps (doResetLog ctx) rest

/-- The claim's reading of "NUL-terminated within the pool": some pool
byte at or after the entry's start, inside the pool, was written and
holds 0. -/
def entryTerminated (ctx : nmgBuildContext) (o : Nat) : Prop :=
  ∃ t, o ≤ t ∧ t < MESSAGE_POOL_SIZE ∧ poolByte ctx.pool t = some 0

/-- The arena's reachable-state invariant: the write offset stays
strictly below the pool size, the table is bounded, entry offsets are
bounded by the offset, the byte just before the offset is a written NUL,
and every entry starting strictly below the offset has a written NUL at
or after its start and before the offset. -/
def CtxInv (ctx : nmgBuildContext) : Prop :=
  ctx.mTextPoolSize < MESSAGE_POOL_SIZE
    ∧ messageCount ctx ≤ MAX_MESSAGES
    ∧ (∀ o ∈ ctx.mMessages, o ≤ ctx.mTextPoolSize)
    ∧ (1 ≤ ctx.mTextPoolSize → poolByte ctx.pool (ctx.mTextPoolSize - 1) = some 0)
    ∧ (∀ o ∈ ctx.mMessages, o < ctx.mTextPoolSize →
        ∃ t, o ≤ t ∧ t < ctx.mTextPoolSize ∧ poolByte ctx.pool t = some 0)

/-! ### Concrete example values used by witnesses and counterexamples -/

/-- A heap with no live allocations and the given out-of-memory
oracle. -/
def mkHeap (mask : Nat → Bool) : Heap := ⟨0, [], mask, 0⟩

/-- A detail-mesh record in its pre-call empty state (all counts zero,
no arrays, externally-owned tag). -/
def emptyDetailMesh : nmgPolyMeshDetail :=
  ⟨0, 0, 0, 0, 0, 0, none, none, none, NMG_ALLOC_TYPE_EXTERNAL⟩

/-- A polygon-mesh record in its pre-call empty state (the value
`rcpmFreeMeshData` resets a record to). -/
def emptyPolyMesh : rcPolyMesh :=
  ⟨0, 0, 0, 0, 0, 0, 0, 0, 0, 0, 0, 0, 0, none, none, none, none, none⟩

/-- Example mesh-space parameters. -/
def exParams : dtNavMeshParams := ⟨0, 0, 0, 1, 1, 2, 10⟩

/-- A container whose single live tile sits in slot 1 while slot 0 is
empty: one live tile, but not in the first slot. -/
def gapNavMesh : dtNavMesh := ⟨exParams, [none, some ⟨true, [9, 9, 9]⟩]⟩

/-- An unpack oracle with no induced failures. -/
def orcAll : UnpackOracle := ⟨true, true, fun _ => true, fun _ => true⟩

/-- A two-record archive whose second record has a zero tile reference
(a corrupt record). -/
def corruptArchive : List Byte :=
  encodeSetHeader ⟨1, 2, exParams⟩ ++ encodeTileHeader ⟨1, 2⟩ ++ [9, 9]
    ++ encodeTileHeader ⟨0, 3⟩ ++ [1, 2, 3]

/-- The container state after the corrupt archive's first record has
been inserted. -/
def oneTileMesh : dtNavMesh := ⟨exParams, [some ⟨true, [9, 9]⟩, none]⟩

/-- A truncated archive: a valid top header declaring one tile record,
with no record bytes behind it. -/
def truncatedArchive : List Byte := encodeSetHeader ⟨1, 1, exParams⟩

/-- A well-formed serialized detail-mesh record with one submesh and no
vertices or triangles (28 header bytes plus a 16-byte `meshes`
array). -/
def exDetailBuf : List Byte :=
  encodeDetailHeader ⟨1, 0, 0, 1, 0, 0, 1⟩ ++ List.replicate 16 5

/-- A wrong-version variant of `exDetailBuf`. -/
def exDetailBufV2 : List Byte :=
  encodeDetailHeader ⟨1, 0, 0, 1, 0, 0, 2⟩ ++ List.replicate 16 5

/-- A wrong-version archive top header. -/
def exArchiveV2 : List Byte := encodeSetHeader ⟨2, 0, exParams⟩

/-- A wrong-version polygon-mesh buffer (72 header bytes). -/
def exPolyBufV2 : List Byte :=
  encodePolyHeader ⟨0, 0, 1, 6, 0, 0, 0, 0, 0, 0, 0, 0, 0, 0, 0, 0, 0, 2⟩

/-- A correct-version polygon-mesh header whose declared arrays
(`maxpolys = 1`, `nvp = 6`, `maxverts = 0`) imply a 101-byte total, used
truncated for the truncation-guard witness. -/
def exPolyBufV1 : List Byte :=
  encodePolyHeader ⟨0, 0, 1, 6, 0, 0, 0, 0, 0, 0, 0, 0, 0, 0, 0, 0, 0, 1⟩

/-- The out-of-memory oracle that fails exactly the second allocation
attempt. -/
def failSecondAlloc : Nat → Bool := fun n => n = 1

/-- The record state `rcpdBuildFromMeshData` leaves behind when the
second array allocation fails on a fresh record: the `meshes` field
still holds the freed allocation's id and the resource tag has been
flipped to locally-owned. -/
def c3WreckedRecord : nmgPolyMeshDetail :=
  ⟨0, 0, 0, 0, 0, 0, some 0, none, none, NMG_ALLOC_TYPE_LOCAL⟩

/-- A populated detail-mesh record for the round-trip witness: one
submesh, two vertices, one triangle, arrays live on the heap. -/
def exDetailMesh10 : nmgPolyMeshDetail :=
  ⟨1, 2, 1, 1, 2, 1, some 100, some 101, some 102, NMG_ALLOC_TYPE_LOCAL⟩

/-- The heap backing `exDetailMesh10`: the `meshes` array (16 bytes),
the `tris` array (4 bytes) and the `verts` array (24 bytes). -/
def exHeap10 : Heap :=
  ⟨103, [(100, List.replicate 16 3), (101, List.replicate 4 4), (102, List.replicate 24 6)],
    fun _ => false, 0⟩

/-- The serialized buffer `rcpdGetSerializedData` produces for
`exDetailMesh10` with `includeBuffer = true`: the 28-byte header
(counts 1/2/1, capacities 1/2/1, version 1), then the 16-byte `meshes`
region, the 4-byte `tris` region and the 24-byte `verts` region. -/
def c10data : List Byte :=
  encodeDetailHeader ⟨1, 2, 1, 1, 2, 1, 1⟩ ++ List.replicate 16 3
    ++ List.replicate 4 4 ++ List.replicate 24 6

/-- The heap after that serialization call: the 72-byte buffer was
allocated as id 103 and filled with `c10data`. -/
def c10hA : Heap :=
  ⟨104, [(103, c10data), (100, List.replicate 16 3), (101, List.replicate 4 4),
    (102, List.replicate 24 6)], fun _ => false, 1⟩

/-- The three-vertex chain breaking the transitivity of the tolerance
relation: consecutive vertices are within 1e-4, the outer pair is
not. -/
def chainVerts : List Vtx := [(0, 0, 0), (3 / 40000, 0, 0), (6 / 40000, 0, 0)]

/-- A detail mesh with one submesh and one triangle, for the flatten
witness. -/
def exFlattenMesh : rcPolyMeshDetail :=
  ⟨1, [0, 3, 0, 1], 3, [(0, 0, 0), (1, 0, 0), (0, 1, 0)], 1, [0, 1, 2, 0]⟩

/-- The operation sequence that drives the pool to one remaining byte
and then logs again: the second entry starts at the pool's last,
never-written byte. -/
def c6EdgeOps : List LogOp :=
  [LogOp.log (fun _ => 7) 65600, LogOp.log (fun _ => 8) 5]

/-- An example tile-data buffer not yet owned by any container. -/
def exTileData : rcnTileData := ⟨some [1, 2, 3], 3, false⟩

/-- A container with two free slots. -/
def exEmptyMesh2 : dtNavMesh := ⟨exParams, [none, none]⟩

/-! ## Theorems -/

/-! ### Helper lemmas for the archive loop -/

theorem meshAddTile_status (m : dtNavMesh) (p : List Byte) (ref : Int) (ok : Bool) :
    (meshAddTile m p ref ok).1 = DT_SUCCESS ∨ (meshAddTile m p ref ok).1 = DT_FAILURE := by
  unfold meshAddTile
  split
  · exact Or.inl rfl
  · exact Or.inr rfl

theorem readTileRecords_false_ne_success (data : List Byte) (orc : UnpackOracle) :
    ∀ (r i : Nat) (pos : Int) (mesh : dtNavMesh) (ac : Nat) (st : dtStatus)
      (mesh1 : dtNavMesh) (ac1 : Nat) (pos1 : Int),
      readTileRecords data orc r i pos mesh ac = some (st, false, mesh1, ac1, pos1) →
      st ≠ DT_SUCCESS := by
  intro r
  induction r with
  | zero =>
      intro i pos mesh ac st mesh1 ac1 pos1 hrun
      simp only [readTileRecords, Option.some.injEq, Prod.mk.injEq] at hrun
      exact absurd hrun.2.1 (by decide)
  | succ r ih =>
      intro i pos mesh ac st mesh1 ac1 pos1 hrun
      simp only [readTileRecords] at hrun
      cases hread : readBytesI data pos TILE_HEADER_SIZE with
      | none => rw [hread] at hrun; exact absurd hrun (by simp)
      | some hb =>
          rw [hread] at hrun
          simp only [] at hrun
          split at hrun
          · simp only [Option.some.injEq, Prod.mk.injEq] at hrun
            obtain ⟨h1, -⟩ := hrun
            subst h1
            decide
          · split at hrun
            · simp only [Option.some.injEq, Prod.mk.injEq] at hrun
              obtain ⟨h1, -⟩ := hrun
              subst h1
              decide
            · cases hp : readBytesI data (pos + TILE_HEADER_SIZE) ((decodeTileHeader hb).dataSize) with
              | none => rw [hp] at hrun; exact absurd hrun (by simp)
              | some payload =>
                  rw [hp] at hrun
                  simp only [] at hrun
                  split at hrun
                  · rename_i hfailed
                    simp only [Option.some.injEq, Prod.mk.injEq] at hrun
                    obtain ⟨h1, -⟩ := hrun
                    subst h1
                    rcases meshAddTile_status mesh payload (decodeTileHeader hb).tileRef
                        (orc.insertOk i) with hs | hs
                    · rw [hs] at hfailed
                      exact absurd hfailed (by decide)
                    · rw [hs]
                      decide
                  · exact ih _ _ _ _ _ _ _ _ hrun

theorem readTileRecords_add (data : List Byte) (orc : UnpackOracle) :
    ∀ (j m i : Nat) (pos : Int) (mesh : dtNavMesh) (ac : Nat),
      readTileRecords data orc (j + m) i pos mesh ac =
        match readTileRecords data orc j i pos mesh ac with
        | none => none
        | some (st, success, mesh1, ac1, pos1) =>
            if success then readTileRecords data orc m (i + j) pos1 mesh1 ac1
            else some (st, success, mesh1, ac1, pos1) := by
  intro j
  induction j with
  | zero =>
      intro m i pos mesh ac
      simp only [Nat.zero_add, readTileRecords, if_true, Nat.add_zero]
  | succ j ih =>
      intro m i pos mesh ac
      have hjm : j + 1 + m = (j + m) + 1 := by omega
      rw [hjm]
      simp only [readTileRecords]
      cases hread : readBytesI data pos TILE_HEADER_SIZE with
      | none => rfl
      | some hb =>
          simp only []
          split
          · rfl
          · split
            · rfl
            · cases hp : readBytesI data (pos + TILE_HEADER_SIZE) ((decodeTileHeader hb).dataSize) with
              | none => rfl
              | some payload =>
                  simp only []
                  split
                  · rfl
                  · rw [ih]
                    have hidx : i + 1 + j = i + (j + 1) := by omega
                    rw [hidx]

/-! ### C1: archive round-trip -/

/-- C1: the claimed archive round-trip (pack then unpack preserves the
live tiles) fails when the live tiles do not occupy the first N slots:
on a container whose single live tile sits in slot 1, the pack loop of
`dtnmGetNavMeshRawData` stores `tileHeaders[1]` into a one-element
array — an out-of-bounds write, then reads back the never-stored element
0 — so packing is undefined behavior (`none`) and the round-trip cannot
hold.  The slot-indexed store into a live-count-sized array is a slip:
the spec's round-trip property is the evident intent. -/
theorem C1_pack_gap_undefined :
    dtnmGetNavMeshRawData (some gapNavMesh) = none := by
  rfl

/-! ### C2: unpack atomicity -/

/-- C2: unpack is all-or-nothing.  First conjunct: whenever
`dtnmBuildDTNavMeshFromRaw` runs to completion past the top-header size
check, the out-pointer holds a container exactly when the status is
`DT_SUCCESS` — a failing status always leaves the out-pointer null, so
a partially filled container is never observable.  Second conjunct: if
the first j records parse and insert cleanly and record j+1 carries a
zero tile reference or zero payload size, the call returns
`DT_FAILURE + DT_INVALID_PARAM` with a null out-pointer. -/
theorem C2_unpack_atomicity :
    (∀ (data : List Byte) (dataSize : Int) (ss : Bool) (pp0 : Option dtNavMesh)
        (orc : UnpackOracle) (st : dtStatus) (out : Option dtNavMesh) (ac : Nat),
        SET_HEADER_SIZE ≤ dataSize →
        dtnmBuildDTNavMeshFromRaw data dataSize ss pp0 orc = some (st, out, ac) →
        (out.isSome = true ↔ st = DT_SUCCESS))
      ∧ (∀ (data : List Byte) (dataSize : Int) (ss : Bool) (pp0 : Option dtNavMesh)
          (orc : UnpackOracle) (hb thb : List Byte) (j m : Nat) (pos1 : Int)
          (mesh1 : dtNavMesh) (ac1 : Nat),
          SET_HEADER_SIZE ≤ dataSize →
          readBytesI data 0 SET_HEADER_SIZE = some hb →
          (decodeSetHeader hb).version = RCN_NAVMESH_VERSION →
          orc.allocMeshOk = true →
          orc.initOk = true →
          (decodeSetHeader hb).tileCount.toNat = j + (m + 1) →
          readTileRecords data orc j 0 SET_HEADER_SIZE
              ⟨(decodeSetHeader hb).params,
                List.replicate (decodeSetHeader hb).params.maxTiles.toNat none⟩ 1
            = some (DT_SUCCESS, true, mesh1, ac1, pos1) →
          readBytesI data pos1 TILE_HEADER_SIZE = some thb →
          ((decodeTileHeader thb).tileRef = 0 ∨ (decodeTileHeader thb).dataSize = 0) →
          dtnmBuildDTNavMeshFromRaw data dataSize ss pp0 orc
            = some (DT_FAILURE + DT_INVALID_PARAM, none, ac1)) := by
  constructor
  · intro data dataSize ss pp0 orc st out ac h36 hrun
    unfold dtnmBuildDTNavMeshFromRaw at hrun
    rw [if_neg (not_lt.mpr h36)] at hrun
    cases hrb : readBytesI data 0 SET_HEADER_SIZE with
    | none => rw [hrb] at hrun; exact absurd hrun (by simp)
    | some hb =>
        rw [hrb] at hrun
        simp only [] at hrun
        split at hrun
        · simp only [Option.some.injEq, Prod.mk.injEq] at hrun
          obtain ⟨h1, h2, -⟩ := hrun
          subst h1
          subst h2
          exact ⟨fun hfalse => absurd hfalse (by decide),
            fun hfalse => absurd hfalse (by decide)⟩
        · split at hrun
          · simp only [Option.some.injEq, Prod.mk.injEq] at hrun
            obtain ⟨h1, h2, -⟩ := hrun
            subst h1
            subst h2
            exact ⟨fun hfalse => absurd hfalse (by decide),
              fun hfalse => absurd hfalse (by decide)⟩
          · split at hrun
            · simp only [Option.some.injEq, Prod.mk.injEq] at hrun
              obtain ⟨h1, h2, -⟩ := hrun
              subst h1
              subst h2
              exact ⟨fun hfalse => absurd hfalse (by decide),
                fun hfalse => absurd hfalse (by decide)⟩
            · cases hloop : readTileRecords data orc (decodeSetHeader hb).tileCount.toNat 0
                  SET_HEADER_SIZE
                  ⟨(decodeSetHeader hb).params,
                    List.replicate (decodeSetHeader hb).params.maxTiles.toNat none⟩ 1 with
              | none => rw [hloop] at hrun; exact absurd hrun (by simp)
              | some res =>
                  rw [hloop] at hrun
                  obtain ⟨st2, success, mesh2, ac2, pos2⟩ := res
                  simp only [] at hrun
                  by_cases hsucc : success = true
                  · rw [if_pos hsucc] at hrun
                    simp only [Option.some.injEq, Prod.mk.injEq] at hrun
                    obtain ⟨h1, h2, -⟩ := hrun
                    subst h1
                    subst h2
                    simp
                  · rw [if_neg hsucc] at hrun
                    simp only [Option.some.injEq, Prod.mk.injEq] at hrun
                    obtain ⟨h1, h2, -⟩ := hrun
                    subst h1
                    subst h2
                    have hb2 : success = false := by
                      cases success
                      · rfl
                      · exact absurd rfl hsucc
                    subst hb2
                    have hne := readTileRecords_false_ne_success data orc _ _ _ _ _ _ _ _ _ hloop
                    exact ⟨fun hfalse => absurd hfalse (by decide),
                      fun heq => absurd heq hne⟩
  · intro data dataSize ss pp0 orc hb thb j m pos1 mesh1 ac1 h36 hrb hver hma hio htc hpre hk hz
    unfold dtnmBuildDTNavMeshFromRaw
    rw [if_neg (not_lt.mpr h36), hrb]
    simp only []
    rw [if_neg (by simp [hver]), if_neg (by simp [hma]), if_neg (by simp [hio]), htc,
      readTileRecords_add, hpre]
    simp only [if_true]
    rw [show m + 1 = Nat.succ m from rfl]
    simp only [readTileRecords]
    rw [hk]
    simp only []
    rw [if_pos hz]
    rfl

/-- Witness for `C2_unpack_atomicity` at the concrete two-record archive
whose second record has a zero tile reference. -/
theorem C2_unpack_atomicity_witness :
    ((none : Option dtNavMesh).isSome = true
        ↔ (DT_FAILURE + DT_INVALID_PARAM : dtStatus) = DT_SUCCESS)
      ∧ dtnmBuildDTNavMeshFromRaw corruptArchive 73 false none orcAll
          = some (DT_FAILURE + DT_INVALID_PARAM, none, 2) :=
  ⟨C2_unpack_atomicity.1 corruptArchive 73 false none orcAll
      (DT_FAILURE + DT_INVALID_PARAM) none 2 (by decide) (by decide),
    C2_unpack_atomicity.2 corruptArchive 73 false none orcAll
      (encodeSetHeader ⟨1, 2, exParams⟩) (encodeTileHeader ⟨0, 3⟩) 1 0 54 oneTileMesh 2
      (by decide) (by decide) (by decide) (by decide) (by decide) (by decide) (by decide)
      (by decide) (by decide)⟩

/-! ### C7: ownership hand-off -/

/-- C7: a buffer successfully inserted by `dtnmAddTile` has its
ownership tag flipped to container-owned and `dtnmFreeTileData` on it is
a no-op leaving data pointer and size unchanged; a failed insert leaves
the record (including its tag) untouched; and `dtnmFreeTileData` on any
container-owned buffer is always a no-op. -/
theorem C7_ownership_handoff :
    (∀ (m : dtNavMesh) (t : rcnTileData) (lastRef : Int) (ok : Bool),
        (dtStatusSucceed (dtnmAddTile (some m) (some t) lastRef ok).1 = true →
            (dtnmAddTile (some m) (some t) lastRef ok).2.1 = some { t with isOwned := true }
              ∧ dtnmFreeTileData ((dtnmAddTile (some m) (some t) lastRef ok).2.1)
                  = (dtnmAddTile (some m) (some t) lastRef ok).2.1)
          ∧ (dtStatusSucceed (dtnmAddTile (some m) (some t) lastRef ok).1 = false →
              (dtnmAddTile (some m) (some t) lastRef ok).2.1 = some t))
      ∧ (∀ t : rcnTileData, t.isOwned = true → dtnmFreeTileData (some t) = some t) := by
  have hfree : ∀ t : rcnTileData, t.isOwned = true → dtnmFreeTileData (some t) = some t := by
    intro t ht
    unfold dtnmFreeTileData
    simp [ht]
  refine ⟨?_, hfree⟩
  intro m t lastRef ok
  obtain ⟨td, tds, tio⟩ := t
  simp only [dtnmAddTile]
  split
  · exact ⟨fun hs =>
      absurd (show dtStatusSucceed (DT_FAILURE + DT_INVALID_PARAM) = true from hs) (by decide),
      fun _ => rfl⟩
  · split
    · exact ⟨fun hs =>
        absurd (show dtStatusSucceed (DT_FAILURE + DT_INVALID_PARAM) = true from hs) (by decide),
        fun _ => rfl⟩
    · split
      · rename_i payload hguard hsucc
        refine ⟨fun _ => ⟨rfl, hfree _ rfl⟩, fun hs => ?_⟩
        rw [hsucc] at hs
        exact absurd hs (by simp)
      · rename_i payload hguard hsucc
        exact ⟨fun hs => absurd (hsucc hs) (fun hfalse => hfalse), fun _ => rfl⟩

/-- Witness for `C7_ownership_handoff`: a successful insert into a
container with a free slot, and a no-op release of an owned buffer. -/
theorem C7_ownership_handoff_witness :
    ((dtnmAddTile (some exEmptyMesh2) (some exTileData) 1 true).2.1
        = some { exTileData with isOwned := true }
      ∧ dtnmFreeTileData ((dtnmAddTile (some exEmptyMesh2) (some exTileData) 1 true).2.1)
          = (dtnmAddTile (some exEmptyMesh2) (some exTileData) 1 true).2.1)
      ∧ dtnmFreeTileData (some ⟨some [1, 2, 3], 3, true⟩) = some ⟨some [1, 2, 3], 3, true⟩ :=
  ⟨(C7_ownership_handoff.1 exEmptyMesh2 exTileData 1 true).1 (by decide),
    C7_ownership_handoff.2 ⟨some [1, 2, 3], 3, true⟩ (by decide)⟩

/-! ### C8: version guard -/

/-- C8: a header version different from the reader's constant makes each
deserializer fail with the input record, heap and out-pointer untouched:
the archive unpack returns `DT_FAILURE + DT_WRONG_VERSION` with a null
out-pointer and zero allocation attempts, and the two mesh-record
deserializers return `false` with the target record and the heap exactly
as passed in (no allocation performed). -/
theorem C8_version_guard :
    (∀ (data : List Byte) (dataSize : Int) (ss : Bool) (pp0 : Option dtNavMesh)
        (orc : UnpackOracle) (hb : List Byte),
        SET_HEADER_SIZE ≤ dataSize →
        readBytesI data 0 SET_HEADER_SIZE = some hb →
        (decodeSetHeader hb).version ≠ RCN_NAVMESH_VERSION →
        dtnmBuildDTNavMeshFromRaw data dataSize ss pp0 orc
          = some (DT_FAILURE + DT_WRONG_VERSION, none, 0))
      ∧ (∀ (meshData : List Byte) (dataSize : Int) (r : nmgPolyMeshDetail) (h : Heap)
          (hb : List Byte),
          readBytesI meshData 0 DETAIL_HEADER_SIZE = some hb →
          (decodeDetailHeader hb).version ≠ NMG_POLYMESHDETAIL_VERSION →
          rcpdBuildFromMeshData meshData dataSize (some r) h = some (false, some r, h))
      ∧ (∀ (meshData : List Byte) (dataSize : Int) (r : rcPolyMesh) (h : Heap)
          (hb : List Byte),
          readBytesI meshData 0 POLY_HEADER_SIZE = some hb →
          (decodePolyHeader hb).version ≠ NMG_POLYMESH_VERSION →
          rcpmBuildSerializedData meshData dataSize (some r) h
            = some (false, some r, h, none)) := by
  refine ⟨?_, ?_, ?_⟩
  · intro data dataSize ss pp0 orc hb h36 hrb hv
    unfold dtnmBuildDTNavMeshFromRaw
    rw [if_neg (not_lt.mpr h36), hrb]
    simp only []
    rw [if_pos hv]
  · intro meshData dataSize r h hb hrb hv
    simp only [rcpdBuildFromMeshData]
    split
    · rfl
    · rw [hrb]
      simp only []
      rw [if_pos hv]
  · intro meshData dataSize r h hb hrb hv
    simp only [rcpmBuildSerializedData]
    split
    · rfl
    · rw [hrb]
      simp only []
      rw [if_pos hv]

/-- Witness for `C8_version_guard` at concrete wrong-version buffers for
all three deserializers. -/
theorem C8_version_guard_witness :
    dtnmBuildDTNavMeshFromRaw exArchiveV2 36 false none orcAll
        = some (DT_FAILURE + DT_WRONG_VERSION, none, 0)
      ∧ rcpdBuildFromMeshData exDetailBufV2 44 (some emptyDetailMesh) (mkHeap (fun _ => false))
          = some (false, some emptyDetailMesh, mkHeap (fun _ => false))
      ∧ rcpmBuildSerializedData exPolyBufV2 72 (some emptyPolyMesh) (mkHeap (fun _ => false))
          = some (false, some emptyPolyMesh, mkHeap (fun _ => false), none) :=
  ⟨C8_version_guard.1 exArchiveV2 36 false none orcAll (encodeSetHeader ⟨2, 0, exParams⟩)
      (by decide) (by decide) (by decide),
    C8_version_guard.2.1 exDetailBufV2 44 emptyDetailMesh (mkHeap (fun _ => false))
      (encodeDetailHeader ⟨1, 0, 0, 1, 0, 0, 2⟩) (by decide) (by decide),
    C8_version_guard.2.2 exPolyBufV2 72 emptyPolyMesh (mkHeap (fun _ => false))
      (encodePolyHeader ⟨0, 0, 1, 6, 0, 0, 0, 0, 0, 0, 0, 0, 0, 0, 0, 0, 0, 2⟩)
      (by decide) (by decide)⟩

/-! ### C9: flatten capacity failures write nothing -/

/-- C9: `rcpdFlattenMesh` fails when the caller's triangle capacity is
below the mesh's triangle count or the vertex capacity is below the
deduplicated vertex count, and on every such failure none of the
caller's output buffers or counts are written. -/
theorem C9_flatten_no_partial_writes
    (dm : rcPolyMeshDetail) (verts0 : List Vtx) (vertCount0 : Int) (vertsSize : Int)
    (tris0 : List Int) (triCount0 : Int) (trisSize : Int)
    (hcap : trisSize < (dm.ntris : Int) ∨
      vertsSize < (((removeDuplicateVerts (dm.verts.take dm.nverts)).1.length : Int))) :
    rcpdFlattenMesh dm verts0 vertCount0 vertsSize tris0 triCount0 trisSize
      = (false, verts0, vertCount0, tris0, triCount0) := by
  unfold rcpdFlattenMesh
  rcases hcap with hcap | hcap
  · simp [hcap]
  · by_cases h2 : trisSize < (dm.ntris : Int)
    · simp [h2]
    · simp [h2, hcap]

/-- Witness for `C9_flatten_no_partial_writes`: a one-triangle detail
mesh against zero-capacity output buffers. -/
theorem C9_flatten_no_partial_writes_witness :
    rcpdFlattenMesh exFlattenMesh [] 0 0 [] 0 0 = (false, [], 0, [], 0) :=
  C9_flatten_no_partial_writes exFlattenMesh [] 0 0 [] 0 0 (by decide)

/-! ### C4: truncation safety -/

/-- C4 counterexample: the archive unpack does not validate the buffer
against the size implied by the header's tile count — on a 36-byte
buffer that is exactly a valid top header declaring one tile record, it
proceeds to read the 16-byte tile record header beyond the end of the
buffer (undefined behavior, `none`) instead of rejecting the input, so
the claim's "rejected before any read past the end" fails for the
archive unpack. -/
theorem C4_truncation_counterexample :
    dtnmBuildDTNavMeshFromRaw truncatedArchive 36 false none orcAll = none := by
  rfl

/-- C4 amended: the mesh-record deserializers do validate the total
implied size — a buffer shorter than the size implied by its own header
is rejected cleanly before any array byte is read, with record and heap
untouched — while the archive unpack validates only that the buffer
holds the fixed-size top header (rejecting cleanly when even that is
absent). -/
theorem C4_truncation_amended :
    (∀ (meshData : List Byte) (dataSize : Int) (r : nmgPolyMeshDetail) (h : Heap)
        (hb : List Byte),
        readBytesI meshData 0 DETAIL_HEADER_SIZE = some hb →
        (decodeDetailHeader hb).version = NMG_POLYMESHDETAIL_VERSION →
        dataSize < DETAIL_HEADER_SIZE + detailVertSize (decodeDetailHeader hb).maxverts
          + detailMeshSize (decodeDetailHeader hb).maxmeshes
          + detailTrisSize (decodeDetailHeader hb).maxtris →
        rcpdBuildFromMeshData meshData dataSize (some r) h = some (false, some r, h))
      ∧ (∀ (meshData : List Byte) (dataSize : Int) (r : rcPolyMesh) (h : Heap)
          (hb : List Byte),
          readBytesI meshData 0 POLY_HEADER_SIZE = some hb →
          (decodePolyHeader hb).version = NMG_POLYMESH_VERSION →
          dataSize < POLY_HEADER_SIZE + polyVertSize (decodePolyHeader hb).maxverts
            + polyPolySize (decodePolyHeader hb).maxpolys (decodePolyHeader hb).nvp
            + 2 * polyRegionFlagSize (decodePolyHeader hb).maxpolys
            + polyAreaSize (decodePolyHeader hb).maxpolys →
          rcpmBuildSerializedData meshData dataSize (some r) h
            = some (false, some r, h, none))
      ∧ (∀ (data : List Byte) (dataSize : Int) (ss : Bool) (pp0 : Option dtNavMesh)
          (orc : UnpackOracle),
          dataSize < SET_HEADER_SIZE →
          dtnmBuildDTNavMeshFromRaw data dataSize ss pp0 orc
            = some (DT_FAILURE + DT_INVALID_PARAM, pp0, 0)) := by
  refine ⟨?_, ?_, ?_⟩
  · intro meshData dataSize r h hb hrb hv htot
    simp only [rcpdBuildFromMeshData]
    split
    · rfl
    · rw [hrb]
      simp only []
      rw [if_neg (by simp [hv]), if_pos htot]
  · intro meshData dataSize r h hb hrb hv htot
    simp only [rcpmBuildSerializedData]
    split
    · rfl
    · rw [hrb]
      simp only []
      rw [if_neg (by simp [hv]), if_pos htot]
  · intro data dataSize ss pp0 orc hlt
    unfold dtnmBuildDTNavMeshFromRaw
    rw [if_pos hlt]

/-- Witness for `C4_truncation_amended`: a truncated detail-mesh buffer
(40 of 44 implied bytes), a truncated polygon-mesh buffer (72 of 101
implied bytes), and an under-header-sized archive. -/
theorem C4_truncation_amended_witness :
    rcpdBuildFromMeshData exDetailBuf 40 (some emptyDetailMesh) (mkHeap (fun _ => false))
        = some (false, some emptyDetailMesh, mkHeap (fun _ => false))
      ∧ rcpmBuildSerializedData exPolyBufV1 72 (some emptyPolyMesh) (mkHeap (fun _ => false))
          = some (false, some emptyPolyMesh, mkHeap (fun _ => false), none)
      ∧ dtnmBuildDTNavMeshFromRaw [1, 2, 3] 3 false none orcAll
          = some (DT_FAILURE + DT_INVALID_PARAM, none, 0) :=
  ⟨C4_truncation_amended.1 exDetailBuf 40 emptyDetailMesh (mkHeap (fun _ => false))
      (encodeDetailHeader ⟨1, 0, 0, 1, 0, 0, 1⟩) (by decide) (by decide) (by decide),
    C4_truncation_amended.2.1 exPolyBufV1 72 emptyPolyMesh (mkHeap (fun _ => false))
      (encodePolyHeader ⟨0, 0, 1, 6, 0, 0, 0, 0, 0, 0, 0, 0, 0, 0, 0, 0, 0, 1⟩)
      (by decide) (by decide) (by decide),
    C4_truncation_amended.2.2 [1, 2, 3] 3 false none orcAll (by decide)⟩

/-! ### Helper lemmas for the allocator -/

theorem hfree_none (h : Heap) : hfree h none = h := rfl

theorem hfree_some (h : Heap) (ida : Nat) :
    hfree h (some ida) = { h with live := liveRemove h.live ida } := rfl

theorem halloc_none_heap (h : Heap) (s : Int) (h2 : Heap)
    (he : halloc h s = (none, h2)) : h2.live = h.live ∧ h2.nextId = h.nextId := by
  unfold halloc at he
  split at he
  · obtain ⟨-, rfl⟩ := Prod.mk.injEq .. ▸ he
    exact ⟨rfl, rfl⟩
  · exact absurd (congrArg Prod.fst he) (by simp)

theorem halloc_some_heap (h : Heap) (s : Int) (ida : Nat) (h2 : Heap)
    (he : halloc h s = (some ida, h2)) :
    ida = h.nextId ∧ h2.live = (h.nextId, List.replicate s.toNat 0) :: h.live
      ∧ h2.nextId = h.nextId + 1 := by
  unfold halloc at he
  split at he
  · exact absurd (congrArg Prod.fst he) (by simp)
  · have h1 := congrArg Prod.fst he
    have h2e := congrArg Prod.snd he
    simp only [] at h1 h2e
    obtain rfl := Option.some.inj h1
    subst h2e
    exact ⟨rfl, rfl, rfl⟩

theorem liveRemove_cons_ne {x : Nat} {ida : Nat} (c : List Byte)
    (l : List (Nat × List Byte)) (h : x ≠ ida) :
    liveRemove ((x, c) :: l) ida = (x, c) :: liveRemove l ida := by
  simp [liveRemove, List.filter_cons, h]

theorem liveRemove_cons_eq {x : Nat} {ida : Nat} (c : List Byte)
    (l : List (Nat × List Byte)) (h : x = ida) :
    liveRemove ((x, c) :: l) ida = liveRemove l ida := by
  simp [liveRemove, List.filter_cons, h]

theorem liveRemove_of_lt (l : List (Nat × List Byte)) (n ida : Nat)
    (hl : ∀ p ∈ l, p.1 < n) (hn : n ≤ ida) : liveRemove l ida = l := by
  refine List.filter_eq_self.mpr (fun a ha => ?_)
  have := hl a ha
  simp only [ne_eq, decide_eq_true_eq]
  omega

/-! ### C3: deserialization rollback -/

/-- C3 counterexample: when the second array allocation of
`rcpdBuildFromMeshData` fails on a fresh empty record, the call returns
`false` — but the record is NOT left in its pre-call empty state: its
`meshes` field still holds the id of the (already freed) allocation and
its resource tag has been flipped to locally-owned, so the claim's
"target record is left in its pre-call empty state" is false for the
detail-mesh deserializer. -/
theorem C3_rollback_counterexample :
    (rcpdBuildFromMeshData exDetailBuf 44 (some emptyDetailMesh) (mkHeap failSecondAlloc)).map
        (fun x => x.1) = some false
      ∧ (rcpdBuildFromMeshData exDetailBuf 44 (some emptyDetailMesh)
          (mkHeap failSecondAlloc)).bind (fun x => x.2.1) = some c3WreckedRecord
      ∧ c3WreckedRecord ≠ emptyDetailMesh := by
  exact ⟨by decide, by decide, by decide⟩

/-- C3 amended: on every failing run both deserializers free every array
they allocated for the record (the live set of the heap is exactly
restored).  `rcpmBuildSerializedData` additionally leaves the record in
its pre-call empty state.  `rcpdBuildFromMeshData` leaves all the
record's element and capacity counts at their pre-call values, but (per
the counterexample) may leave dangling pointer values in the array
fields and the resource tag set to locally-owned. -/
theorem C3_rollback_amended :
    (∀ (meshData : List Byte) (dataSize : Int) (r0 : nmgPolyMeshDetail) (h : Heap)
        (r1 : nmgPolyMeshDetail) (h1 : Heap),
        HeapWF h →
        r0.meshes = none → r0.tris = none → r0.verts = none →
        rcpdBuildFromMeshData meshData dataSize (some r0) h = some (false, some r1, h1) →
        h1.live = h.live ∧ r1.nmeshes = r0.nmeshes ∧ r1.nverts = r0.nverts
          ∧ r1.ntris = r0.ntris ∧ r1.maxmeshes = r0.maxmeshes ∧ r1.maxverts = r0.maxverts
          ∧ r1.maxtris = r0.maxtris)
      ∧ (∀ (meshData : List Byte) (dataSize : Int) (h : Heap) (r1 : Option rcPolyMesh)
          (h1 : Heap) (out : Option (Int × Int × Int × Int)),
          HeapWF h →
          rcpmBuildSerializedData meshData dataSize (some emptyPolyMesh) h
            = some (false, r1, h1, out) →
          h1.live = h.live ∧ r1 = some emptyPolyMesh) := by
  constructor
  · intro meshData dataSize r0 h r1 h1 hwf hm0 ht0 hv0 hrun
    simp only [rcpdBuildFromMeshData] at hrun
    split at hrun
    · simp only [Option.some.injEq, Prod.mk.injEq] at hrun
      obtain ⟨-, hr, hh⟩ := hrun
      subst hr
      subst hh
      exact ⟨rfl, rfl, rfl, rfl, rfl, rfl, rfl⟩
    · cases hrb : readBytesI meshData 0 DETAIL_HEADER_SIZE with
      | none => rw [hrb] at hrun; exact absurd hrun (by simp)
      | some hb =>
          rw [hrb] at hrun
          simp only [] at hrun
          split at hrun
          · simp only [Option.some.injEq, Prod.mk.injEq] at hrun
            obtain ⟨-, hr, hh⟩ := hrun
            subst hr
            subst hh
            exact ⟨rfl, rfl, rfl, rfl, rfl, rfl, rfl⟩
          · split at hrun
            · simp only [Option.some.injEq, Prod.mk.injEq] at hrun
              obtain ⟨-, hr, hh⟩ := hrun
              subst hr
              subst hh
              exact ⟨rfl, rfl, rfl, rfl, rfl, rfl, rfl⟩
            · cases hal : halloc h (detailMeshSize (decodeDetailHeader hb).maxmeshes) with
              | mk om hA =>
                  rw [hal] at hrun
                  simp only [] at hrun
                  cases om with
                  | none =>
                      obtain ⟨hliveA, -⟩ := halloc_none_heap _ _ _ hal
                      simp only [rcpdFreeMeshData, hm0, ht0, hv0, if_true, hfree_none,
                        Option.some.injEq, Prod.mk.injEq] at hrun
                      obtain ⟨-, hr, hh⟩ := hrun
                      subst hr
                      subst hh
                      exact ⟨hliveA, rfl, rfl, rfl, rfl, rfl, rfl⟩
                  | some id0 =>
                      obtain ⟨hid0, hliveA, hnidA⟩ := halloc_some_heap _ _ _ _ hal
                      cases hal2 : halloc hA (detailTrisSize (decodeDetailHeader hb).maxtris) with
                      | mk ot hB =>
                          rw [hal2] at hrun
                          simp only [] at hrun
                          cases ot with
                          | none =>
                              obtain ⟨hliveB, -⟩ := halloc_none_heap _ _ _ hal2
                              simp only [rcpdFreeMeshData, hv0, if_true, hfree_none, hfree_some,
                                Option.some.injEq, Prod.mk.injEq] at hrun
                              obtain ⟨-, hr, hh⟩ := hrun
                              subst hr
                              subst hh
                              refine ⟨?_, rfl, rfl, rfl, rfl, rfl, rfl⟩
                              simp only [hliveB, hliveA, hid0]
                              rw [liveRemove_cons_eq _ _ (show h.nextId = h.nextId from rfl)]
                              exact liveRemove_of_lt h.live h.nextId h.nextId hwf le_rfl
                          | some id1 =>
                              obtain ⟨hid1, hliveB, hnidB⟩ := halloc_some_heap _ _ _ _ hal2
                              cases hal3 : halloc hB (detailVertSize (decodeDetailHeader hb).maxverts) with
                              | mk ov hC =>
                                  rw [hal3] at hrun
                                  simp only [] at hrun
                                  cases ov with
                                  | none =>
                                      obtain ⟨hliveC, -⟩ := halloc_none_heap _ _ _ hal3
                                      simp only [rcpdFreeMeshData, if_true, hfree_none, hfree_some,
                                        Option.some.injEq, Prod.mk.injEq] at hrun
                                      obtain ⟨-, hr, hh⟩ := hrun
                                      subst hr
                                      subst hh
                                      refine ⟨?_, rfl, rfl, rfl, rfl, rfl, rfl⟩
                                      simp only [hliveC, hliveB, hliveA, hid0, hid1, hnidA]
                                      rw [liveRemove_cons_ne _ _ (show h.nextId + 1 ≠ h.nextId by omega)]
                                      rw [liveRemove_cons_eq _ _ (show h.nextId = h.nextId from rfl)]
                                      rw [liveRemove_of_lt h.live h.nextId h.nextId hwf le_rfl]
                                      rw [liveRemove_cons_eq _ _ (show h.nextId + 1 = h.nextId + 1 from rfl)]
                                      exact liveRemove_of_lt h.live h.nextId (h.nextId + 1) hwf
                                        (Nat.le_succ _)
                                  | some id2 =>
                                      cases hr1 : readBytesI meshData DETAIL_HEADER_SIZE
                                          (detailMeshSize (decodeDetailHeader hb).maxmeshes) with
                                      | none => rw [hr1] at hrun; exact absurd hrun (by simp)
                                      | some mseg =>
                                          rw [hr1] at hrun
                                          simp only [] at hrun
                                          cases hr2 : readBytesI meshData
                                              (DETAIL_HEADER_SIZE + detailMeshSize (decodeDetailHeader hb).maxmeshes)
                                              (detailTrisSize (decodeDetailHeader hb).maxtris) with
                                          | none => rw [hr2] at hrun; exact absurd hrun (by simp)
                                          | some tseg =>
                                              rw [hr2] at hrun
                                              simp only [] at hrun
                                              cases hr3 : readBytesI meshData
                                                  (DETAIL_HEADER_SIZE + detailMeshSize (decodeDetailHeader hb).maxmeshes
                                                    + detailTrisSize (decodeDetailHeader hb).maxtris)
                                                  (detailVertSize (decodeDetailHeader hb).maxverts) with
                                              | none => rw [hr3] at hrun; exact absurd hrun (by simp)
                                              | some vseg =>
                                                  rw [hr3] at hrun
                                                  simp only [Option.some.injEq, Prod.mk.injEq] at hrun
                                                  exact absurd hrun.1 (by simp)
  · intro meshData dataSize h r1 h1 out hwf hrun
    simp only [rcpmBuildSerializedData] at hrun
    split at hrun
    · simp only [Option.some.injEq, Prod.mk.injEq] at hrun
      obtain ⟨-, hr, hh, -⟩ := hrun
      subst hh
      exact ⟨rfl, hr.symm⟩
    · cases hrb : readBytesI meshData 0 POLY_HEADER_SIZE with
      | none => rw [hrb] at hrun; exact absurd hrun (by simp)
      | some hb =>
          rw [hrb] at hrun
          simp only [] at hrun
          split at hrun
          · simp only [Option.some.injEq, Prod.mk.injEq] at hrun
            obtain ⟨-, hr, hh, -⟩ := hrun
            subst hh
            exact ⟨rfl, hr.symm⟩
          · split at hrun
            · simp only [Option.some.injEq, Prod.mk.injEq] at hrun
              obtain ⟨-, hr, hh, -⟩ := hrun
              subst hh
              exact ⟨rfl, hr.symm⟩
            · cases hal : halloc h (polyVertSize (decodePolyHeader hb).maxverts) with
              | mk ov hA =>
                  rw [hal] at hrun
                  simp only [] at hrun
                  cases ov with
                  | none =>
                      obtain ⟨hliveA, -⟩ := halloc_none_heap _ _ _ hal
                      simp only [rcpmFreeMeshData, emptyPolyMesh, hfree_none,
                        Option.some.injEq, Prod.mk.injEq] at hrun
                      obtain ⟨-, hr, hh, -⟩ := hrun
                      subst hh
                      exact ⟨hliveA, hr.symm⟩
                  | some id0 =>
                      obtain ⟨hid0, hliveA, hnidA⟩ := halloc_some_heap _ _ _ _ hal
                      cases hal2 : halloc hA (polyPolySize (decodePolyHeader hb).maxpolys (decodePolyHeader hb).nvp) with
                      | mk op hB =>
                          rw [hal2] at hrun
                          simp only [] at hrun
                          cases op with
                          | none =>
                              obtain ⟨hliveB, -⟩ := halloc_none_heap _ _ _ hal2
                              simp only [rcpmFreeMeshData, emptyPolyMesh, hfree_none, hfree_some,
                                Option.some.injEq, Prod.mk.injEq] at hrun
                              obtain ⟨-, hr, hh, -⟩ := hrun
                              subst hh
                              refine ⟨?_, hr.symm⟩
                              simp only [hliveB, hliveA, hid0]
                              rw [liveRemove_cons_eq _ _ (show h.nextId = h.nextId from rfl)]
                              exact liveRemove_of_lt h.live h.nextId h.nextId hwf le_rfl
                          | some id1 =>
                              obtain ⟨hid1, hliveB, hnidB⟩ := halloc_some_heap _ _ _ _ hal2
                              cases hal3 : halloc hB (polyRegionFlagSize (decodePolyHeader hb).maxpolys) with
                              | mk og hC =>
                                  rw [hal3] at hrun
                                  simp only [] at hrun
                                  cases og with
                                  | none =>
                                      obtain ⟨hliveC, -⟩ := halloc_none_heap _ _ _ hal3
                                      simp only [rcpmFreeMeshData, emptyPolyMesh, hfree_none, hfree_some,
                                        Option.some.injEq, Prod.mk.injEq] at hrun
                                      obtain ⟨-, hr, hh, -⟩ := hrun
                                      subst hh
                                      refine ⟨?_, hr.symm⟩
                                      simp only [hliveC, hliveB, hliveA, hid0, hid1, hnidA]
                                      rw [liveRemove_cons_eq _ _ (show h.nextId + 1 = h.nextId + 1 from rfl)]
                                      rw [liveRemove_cons_ne _ _ (show h.nextId ≠ h.nextId + 1 by omega)]
                                      rw [liveRemove_of_lt h.live h.nextId (h.nextId + 1) hwf (by omega)]
                                      rw [liveRemove_cons_eq _ _ (show h.nextId = h.nextId from rfl)]
                                      exact liveRemove_of_lt h.live h.nextId h.nextId hwf le_rfl
                                  | some id2 =>
                                      obtain ⟨hid2, hliveC, hnidC⟩ := halloc_some_heap _ _ _ _ hal3
                                      cases hal4 : halloc hC (polyRegionFlagSize (decodePolyHeader hb).maxpolys) with
                                      | mk og2 hD =>
                                          rw [hal4] at hrun
                                          simp only [] at hrun
                                          cases og2 with
                                          | none =>
                                              obtain ⟨hliveD, -⟩ := halloc_none_heap _ _ _ hal4
                                              simp only [rcpmFreeMeshData, emptyPolyMesh, hfree_none, hfree_some,
                                                Option.some.injEq, Prod.mk.injEq] at hrun
                                              obtain ⟨-, hr, hh, -⟩ := hrun
                                              subst hh
                                              refine ⟨?_, hr.symm⟩
                                              simp only [hliveD, hliveC, hliveB, hliveA, hid0, hid1,
                                                hid2, hnidA, hnidB]
                                              rw [liveRemove_cons_ne _ _ (show h.nextId + 1 + 1 ≠ h.nextId + 1 by omega)]
                                              rw [liveRemove_cons_eq _ _ (show h.nextId + 1 = h.nextId + 1 from rfl)]
                                              rw [liveRemove_cons_ne _ _ (show h.nextId ≠ h.nextId + 1 by omega)]
                                              rw [liveRemove_of_lt h.live h.nextId (h.nextId + 1) hwf (by omega)]
                                              rw [liveRemove_cons_ne _ _ (show h.nextId + 1 + 1 ≠ h.nextId by omega)]
                                              rw [liveRemove_cons_eq _ _ (show h.nextId = h.nextId from rfl)]
                                              rw [liveRemove_of_lt h.live h.nextId h.nextId hwf le_rfl]
                                              rw [liveRemove_cons_eq _ _ (show h.nextId + 1 + 1 = h.nextId + 1 + 1 from rfl)]
                                              exact liveRemove_of_lt h.live h.nextId (h.nextId + 1 + 1) hwf (by omega)
                                          | some id3 =>
                                              obtain ⟨hid3, hliveD, hnidD⟩ := halloc_some_heap _ _ _ _ hal4
                                              cases hal5 : halloc hD (polyAreaSize (decodePolyHeader hb).maxpolys) with
                                              | mk oa hE =>
                                                  rw [hal5] at hrun
                                                  simp only [] at hrun
                                                  cases oa with
                                                  | none =>
                                                      obtain ⟨hliveE, -⟩ := halloc_none_heap _ _ _ hal5
                                                      simp only [rcpmFreeMeshData, emptyPolyMesh, hfree_none, hfree_some,
                                                        Option.some.injEq, Prod.mk.injEq] at hrun
                                                      obtain ⟨-, hr, hh, -⟩ := hrun
                                                      subst hh
                                                      refine ⟨?_, hr.symm⟩
                                                      simp only [hliveE, hliveD, hliveC, hliveB, hliveA,
                                                        hid0, hid1, hid2, hid3, hnidA, hnidB, hnidC]
                                                      rw [liveRemove_cons_ne _ _ (show h.nextId + 1 + 1 + 1 ≠ h.nextId + 1 by omega)]
                                                      rw [liveRemove_cons_ne _ _ (show h.nextId + 1 + 1 ≠ h.nextId + 1 by omega)]
                                                      rw [liveRemove_cons_eq _ _ (show h.nextId + 1 = h.nextId + 1 from rfl)]
                                                      rw [liveRemove_cons_ne _ _ (show h.nextId ≠ h.nextId + 1 by omega)]
                                                      rw [liveRemove_of_lt h.live h.nextId (h.nextId + 1) hwf (by omega)]
                                                      rw [liveRemove_cons_ne _ _ (show h.nextId + 1 + 1 + 1 ≠ h.nextId by omega)]
                                                      rw [liveRemove_cons_ne _ _ (show h.nextId + 1 + 1 ≠ h.nextId by omega)]
                                                      rw [liveRemove_cons_eq _ _ (show h.nextId = h.nextId from rfl)]
                                                      rw [liveRemove_of_lt h.live h.nextId h.nextId hwf le_rfl]
                                                      rw [liveRemove_cons_ne _ _ (show h.nextId + 1 + 1 + 1 ≠ h.nextId + 1 + 1 by omega)]
                                                      rw [liveRemove_cons_eq _ _ (show h.nextId + 1 + 1 = h.nextId + 1 + 1 from rfl)]
                                                      rw [liveRemove_of_lt h.live h.nextId (h.nextId + 1 + 1) hwf (by omega)]
                                                      rw [liveRemove_cons_eq _ _ (show h.nextId + 1 + 1 + 1 = h.nextId + 1 + 1 + 1 from rfl)]
                                                      exact liveRemove_of_lt h.live h.nextId (h.nextId + 1 + 1 + 1) hwf (by omega)
                                                  | some id4 =>
                                                      cases hr1 : readBytesI meshData POLY_HEADER_SIZE
                                                          (polyVertSize (decodePolyHeader hb).maxverts) with
                                                      | none => rw [hr1] at hrun; exact absurd hrun (by simp)
                                                      | some vseg =>
                                                          rw [hr1] at hrun
                                                          simp only [] at hrun
                                                          cases hr2 : readBytesI meshData
                                                              (POLY_HEADER_SIZE + polyVertSize (decodePolyHeader hb).maxverts)
                                                              (polyPolySize (decodePolyHeader hb).maxpolys (decodePolyHeader hb).nvp) with
                                                          | none => rw [hr2] at hrun; exact absurd hrun (by simp)
                                                          | some pseg =>
                                                              rw [hr2] at hrun
                                                              simp only [] at hrun
                                                              cases hr3 : readBytesI meshData
                                                                  (POLY_HEADER_SIZE + polyVertSize (decodePolyHeader hb).maxverts
                                                                    + polyPolySize (decodePolyHeader hb).maxpolys (decodePolyHeader hb).nvp)
                                                                  (polyRegionFlagSize (decodePolyHeader hb).maxpolys) with
                                                              | none => rw [hr3] at hrun; exact absurd hrun (by simp)
                                                              | some gseg =>
                                                                  rw [hr3] at hrun
                                                                  simp only [] at hrun
                                                                  cases hr4 : readBytesI meshData
                                                                      (POLY_HEADER_SIZE + polyVertSize (decodePolyHeader hb).maxverts
                                                                        + polyPolySize (decodePolyHeader hb).maxpolys (decodePolyHeader hb).nvp
                                                                        + polyRegionFlagSize (decodePolyHeader hb).maxpolys)
                                                                      (polyRegionFlagSize (decodePolyHeader hb).maxpolys) with
                                                                  | none => rw [hr4] at hrun; exact absurd hrun (by simp)
                                                                  | some fseg =>
                                                                      rw [hr4] at hrun
                                                                      simp only [] at hrun
                                                                      cases hr5 : readBytesI meshData
                                                                          (POLY_HEADER_SIZE + polyVertSize (decodePolyHeader hb).maxverts
                                                                            + polyPolySize (decodePolyHeader hb).maxpolys (decodePolyHeader hb).nvp
                                                                            + 2 * polyRegionFlagSize (decodePolyHeader hb).maxpolys)
                                                                          (polyAreaSize (decodePolyHeader hb).maxpolys) with
                                                                      | none => rw [hr5] at hrun; exact absurd hrun (by simp)
                                                                      | some aseg =>
                                                                          rw [hr5] at hrun
                                                                          simp only [Option.some.injEq, Prod.mk.injEq] at hrun
                                                                          exact absurd hrun.1 (by simp)

/-- Witness for `C3_rollback_amended`: the detail-mesh arm at the
failed-second-allocation run (heap restored, counts kept) and the
polygon-mesh arm at a truncated-buffer rejection. -/
theorem C3_rollback_amended_witness :
    (({ nextId := 1, live := [], failMask := failSecondAlloc, attempts := 2 } : Heap).live
        = (mkHeap failSecondAlloc).live
      ∧ c3WreckedRecord.nmeshes = emptyDetailMesh.nmeshes
      ∧ c3WreckedRecord.nverts = emptyDetailMesh.nverts
      ∧ c3WreckedRecord.ntris = emptyDetailMesh.ntris
      ∧ c3WreckedRecord.maxmeshes = emptyDetailMesh.maxmeshes
      ∧ c3WreckedRecord.maxverts = emptyDetailMesh.maxverts
      ∧ c3WreckedRecord.maxtris = emptyDetailMesh.maxtris)
      ∧ ((mkHeap (fun _ => false)).live = (mkHeap (fun _ => false)).live
        ∧ (some emptyPolyMesh : Option rcPolyMesh) = some emptyPolyMesh) :=
  ⟨C3_rollback_amended.1 exDetailBuf 44 emptyDetailMesh (mkHeap failSecondAlloc)
      c3WreckedRecord ⟨1, [], failSecondAlloc, 2⟩
      (fun p hp => absurd hp (List.not_mem_nil p)) rfl rfl rfl rfl,
    C3_rollback_amended.2 exPolyBufV1 72 (mkHeap (fun _ => false))
      (some emptyPolyMesh) (mkHeap (fun _ => false)) none
      (fun p hp => absurd hp (List.not_mem_nil p)) rfl⟩

/-! ### C6: message arena invariants -/

theorem poolByte_hit (s : PoolSeg) (rest : List PoolSeg) (p : Nat)
    (h1 : s.start ≤ p) (h2 : p < s.start + s.len) :
    poolByte (s :: rest) p = some (s.content (p - s.start)) := by
  simp only [poolByte]
  rw [if_pos ⟨h1, h2⟩]

theorem poolByte_miss (s : PoolSeg) (rest : List PoolSeg) (p : Nat)
    (h : ¬(s.start ≤ p ∧ p < s.start + s.len)) :
    poolByte (s :: rest) p = poolByte rest p := by
  simp only [poolByte]
  rw [if_neg h]

theorem poolByte_push2 (n rl : Nat) (msg : Nat → Int) (pool : List PoolSeg)
    (hd : 1 ≤ n → poolByte pool (n - 1) = some 0)
    (p : Nat) (hp : p < n) :
    poolByte ((PoolSeg.mk (n + rl - 1) 1 (fun _ => 0)) :: (PoolSeg.mk n rl msg) :: pool) p
      = poolByte pool p := by
  by_cases hrl : 1 ≤ rl
  · rw [poolByte_miss _ _ _ (show ¬(n + rl - 1 ≤ p ∧ p < n + rl - 1 + 1) by omega)]
    rw [poolByte_miss _ _ _ (show ¬(n ≤ p ∧ p < n + rl) by omega)]
  · have hrl0 : rl = 0 := by omega
    by_cases hp2 : p = n - 1
    · subst hp2
      rw [poolByte_hit _ _ _ (show n + rl - 1 ≤ n - 1 by omega)
        (show n - 1 < n + rl - 1 + 1 by omega)]
      rw [hd (by omega)]
    · rw [poolByte_miss _ _ _ (show ¬(n + rl - 1 ≤ p ∧ p < n + rl - 1 + 1) by omega)]
      rw [poolByte_miss _ _ _ (show ¬(n ≤ p ∧ p < n + rl) by omega)]

theorem poolByte_doLog (ctx : nmgBuildContext) (msg : Nat → Int) (len : Nat)
    (hd : 1 ≤ ctx.mTextPoolSize → poolByte ctx.pool (ctx.mTextPoolSize - 1) = some 0)
    (p : Nat) (hp : p < ctx.mTextPoolSize) :
    poolByte (doLog ctx msg len).pool p = poolByte ctx.pool p := by
  unfold doLog
  split
  · rfl
  · dsimp only []
    split
    · rfl
    · exact poolByte_push2 ctx.mTextPoolSize _ msg ctx.pool hd p hp

theorem ctxInv_doLog (ctx : nmgBuildContext) (msg : Nat → Int) (len : Nat)
    (hinv : CtxInv ctx) : CtxInv (doLog ctx msg len) := by
  obtain ⟨ha, hb, hc, hd, he⟩ := hinv
  unfold doLog
  split
  · exact ⟨ha, hb, hc, hd, he⟩
  · rename_i hguard
    push_neg at hguard
    obtain ⟨-, hlen, hcount⟩ := hguard
    dsimp only []
    split
    · exact ⟨ha, hb, hc, hd, he⟩
    · rename_i hrem
      set rl := (len + 1) ⊓ (MESSAGE_POOL_SIZE - ctx.mTextPoolSize - 1) with hrldef
      have hrle : rl ≤ MESSAGE_POOL_SIZE - ctx.mTextPoolSize - 1 := by
        rw [hrldef]
        exact min_le_right _ _
      have hrem2 : ¬(MESSAGE_POOL_SIZE - ctx.mTextPoolSize < 1) := hrem
      have hb2 : ctx.mMessages.length ≤ MAX_MESSAGES := hb
      have hcount2 : ctx.mMessages.length < MAX_MESSAGES := hcount
      refine ⟨?_, ?_, ?_, ?_, ?_⟩
      · show ctx.mTextPoolSize + rl < MESSAGE_POOL_SIZE
        omega
      · show (ctx.mMessages ++ [ctx.mTextPoolSize]).length ≤ MAX_MESSAGES
        rw [List.length_append]
        simp only [List.length_singleton]
        omega
      · intro o ho
        have ho2 : o ∈ ctx.mMessages ++ [ctx.mTextPoolSize] := ho
        show o ≤ ctx.mTextPoolSize + rl
        rcases List.mem_append.mp ho2 with ho3 | ho3
        · have := hc o ho3
          omega
        · have : o = ctx.mTextPoolSize := List.mem_singleton.mp ho3
          omega
      · intro h1
        have h1b : 1 ≤ ctx.mTextPoolSize + rl := h1
        show poolByte ((PoolSeg.mk (ctx.mTextPoolSize + rl - 1) 1 (fun _ => 0))
          :: (PoolSeg.mk ctx.mTextPoolSize rl msg) :: ctx.pool) (ctx.mTextPoolSize + rl - 1)
          = some 0
        by_cases hrl : 1 ≤ rl
        · rw [poolByte_hit _ _ _ (show ctx.mTextPoolSize + rl - 1 ≤ ctx.mTextPoolSize + rl - 1 from le_rfl)
            (show ctx.mTextPoolSize + rl - 1 < ctx.mTextPoolSize + rl - 1 + 1 by omega)]
        · have hrl0 : rl = 0 := by omega
          rw [poolByte_hit _ _ _ (show ctx.mTextPoolSize + rl - 1 ≤ ctx.mTextPoolSize + rl - 1 from le_rfl)
            (show ctx.mTextPoolSize + rl - 1 < ctx.mTextPoolSize + rl - 1 + 1 by omega)]
      · intro o ho hlt
        have ho2 : o ∈ ctx.mMessages ++ [ctx.mTextPoolSize] := ho
        have hlt2 : o < ctx.mTextPoolSize + rl := hlt
        rcases List.mem_append.mp ho2 with ho3 | ho3
        · have hole := hc o ho3
          by_cases holt : o < ctx.mTextPoolSize
          · obtain ⟨t, ht1, ht2, ht3⟩ := he o ho3 holt
            refine ⟨t, ht1, show t < ctx.mTextPoolSize + rl by omega, ?_⟩
            show poolByte ((PoolSeg.mk (ctx.mTextPoolSize + rl - 1) 1 (fun _ => 0))
              :: (PoolSeg.mk ctx.mTextPoolSize rl msg) :: ctx.pool) t = some 0
            rw [poolByte_push2 ctx.mTextPoolSize rl msg ctx.pool hd t ht2]
            exact ht3
          · have hoeq : o = ctx.mTextPoolSize := by omega
            have hrl1 : 1 ≤ rl := by omega
            refine ⟨ctx.mTextPoolSize + rl - 1, by omega,
              show ctx.mTextPoolSize + rl - 1 < ctx.mTextPoolSize + rl by omega, ?_⟩
            show poolByte ((PoolSeg.mk (ctx.mTextPoolSize + rl - 1) 1 (fun _ => 0))
              :: (PoolSeg.mk ctx.mTextPoolSize rl msg) :: ctx.pool) (ctx.mTextPoolSize + rl - 1)
              = some 0
            rw [poolByte_hit _ _ _ (show ctx.mTextPoolSize + rl - 1 ≤ ctx.mTextPoolSize + rl - 1 from le_rfl)
              (show ctx.mTextPoolSize + rl - 1 < ctx.mTextPoolSize + rl - 1 + 1 by omega)]
        · have hoeq : o = ctx.mTextPoolSize := List.mem_singleton.mp ho3
          have hrl1 : 1 ≤ rl := by omega
          refine ⟨ctx.mTextPoolSize + rl - 1, by omega,
            show ctx.mTextPoolSize + rl - 1 < ctx.mTextPoolSize + rl by omega, ?_⟩
          show poolByte ((PoolSeg.mk (ctx.mTextPoolSize + rl - 1) 1 (fun _ => 0))
            :: (PoolSeg.mk ctx.mTextPoolSize rl msg) :: ctx.pool) (ctx.mTextPoolSize + rl - 1)
            = some 0
          rw [poolByte_hit _ _ _ (show ctx.mTextPoolSize + rl - 1 ≤ ctx.mTextPoolSize + rl - 1 from le_rfl)
            (show ctx.mTextPoolSize + rl - 1 < ctx.mTextPoolSize + rl - 1 + 1 by omega)]

theorem ctxInv_reset (ctx : nmgBuildContext) : CtxInv (doResetLog ctx) := by
  refine ⟨?_, ?_, ?_, ?_, ?_⟩
  · show 0 < MESSAGE_POOL_SIZE
    decide
  · show ([] : List Nat).length ≤ MAX_MESSAGES
    decide
  · intro o ho
    exact absurd ho (List.not_mem_nil o)
  · intro h1
    exact absurd (show (1 : Nat) ≤ 0 from h1) (by decide)
  · intro o ho
    exact absurd ho (List.not_mem_nil o)

theorem ctxInv_fresh : CtxInv freshContext := by
  refine ⟨by decide, by decide, ?_, ?_, ?_⟩
  · intro o ho
    exact absurd ho (List.not_mem_nil o)
  · intro h1
    exact absurd (show (1 : Nat) ≤ 0 from h1) (by decide)
  · intro o ho
    exact absurd ho (List.not_mem_nil o)

theorem ctxInv_run (ops : List LogOp) :
    ∀ ctx : nmgBuildContext, CtxInv ctx → CtxInv (runLogOps ctx ops) := by
  induction ops with
  | nil => intro ctx h; exact h
  | cons op rest ih =>
      intro ctx h
      cases op with
      | log c n => exact ih _ (ctxInv_doLog ctx c n h)
      | reset => exact ih _ (ctxInv_reset ctx)

/-- C6 counterexample: drive the pool to exactly one remaining byte and
log again — `realLength` becomes 0 and the stored entry starts at the
pool's last byte, which no write ever covered, so the entry is not
NUL-terminated within the pool and the claim's termination conjunct
fails. -/
theorem C6_arena_counterexample :
    65535 ∈ (runLogOps freshContext c6EdgeOps).mMessages
      ∧ ¬ entryTerminated (runLogOps freshContext c6EdgeOps) 65535 := by
  constructor
  · decide
  · rintro ⟨t, ht1, ht2, ht3⟩
    have hP : MESSAGE_POOL_SIZE = 65536 := rfl
    have hteq : t = 65535 := by omega
    subst hteq
    have hnone : poolByte (runLogOps freshContext c6EdgeOps).pool 65535 = none := by decide
    rw [hnone] at ht3
    exact Option.noConfusion ht3

/-- C6 amended: over every sequence of log and reset operations the
count never exceeds MAX_MESSAGES (and a log on a full table is a no-op),
the write offset never exceeds the pool size, every stored entry that
begins strictly below the current write offset is NUL-terminated within
the pool (the entry stored when exactly one byte remained begins AT the
offset and is excluded — see the counterexample), a further log call
never changes any pool byte below the current offset, and reset restores
the count to zero. -/
theorem C6_arena_amended (ops : List LogOp) :
    messageCount (runLogOps freshContext ops) ≤ MAX_MESSAGES
      ∧ (runLogOps freshContext ops).mTextPoolSize ≤ MESSAGE_POOL_SIZE
      ∧ (∀ o ∈ (runLogOps freshContext ops).mMessages,
          o < (runLogOps freshContext ops).mTextPoolSize →
          entryTerminated (runLogOps freshContext ops) o)
      ∧ (∀ (c : Nat → Int) (n p : Nat), p < (runLogOps freshContext ops).mTextPoolSize →
          poolByte (doLog (runLogOps freshContext ops) c n).pool p
            = poolByte (runLogOps freshContext ops).pool p)
      ∧ messageCount (doResetLog (runLogOps freshContext ops)) = 0
      ∧ (messageCount (runLogOps freshContext ops) = MAX_MESSAGES →
          ∀ (c : Nat → Int) (n : Nat),
            doLog (runLogOps freshContext ops) c n = runLogOps freshContext ops) := by
  obtain ⟨ha, hb, hc, hd, he⟩ := ctxInv_run ops freshContext ctxInv_fresh
  refine ⟨hb, le_of_lt ha, ?_, ?_, rfl, ?_⟩
  · intro o ho hlt
    obtain ⟨t, ht1, ht2, ht3⟩ := he o ho hlt
    exact ⟨t, ht1, by omega, ht3⟩
  · intro c n p hp
    exact poolByte_doLog _ c n hd p hp
  · intro hfull c n
    unfold doLog
    rw [if_pos (Or.inr (Or.inr (le_of_eq hfull.symm)))]

/-- Witness for `C6_arena_amended` at a single concrete log operation. -/
theorem C6_arena_amended_witness :
    entryTerminated (runLogOps freshContext [LogOp.log (fun _ => 65) 2]) 0
      ∧ messageCount (doResetLog (runLogOps freshContext [LogOp.log (fun _ => 65) 2])) = 0 :=
  ⟨(C6_arena_amended [LogOp.log (fun _ => 65) 2]).2.2.1 0 (by decide) (by decide),
    (C6_arena_amended [LogOp.log (fun _ => 65) 2]).2.2.2.2.1⟩

end CritterAI
namespace CritterAI

theorem nmgSloppyEquals_refl (a : ℚ) : nmgSloppyEquals a a = true := by
  have h1 : ¬(a < a - NMG_TOLERANCE) := by
    rw [NMG_TOLERANCE]
    intro h
    linarith
  have h2 : ¬(a > a + NMG_TOLERANCE) := by
    rw [NMG_TOLERANCE]
    intro h
    linarith
  simp [nmgSloppyEquals, h1, h2]

theorem sloppyVertEq_refl (v : Vtx) : sloppyVertEq v v = true := by
  simp [sloppyVertEq, nmgSloppyEquals_refl]

theorem scanForMatch_append (v : Vtx) (ws2 : List Vtx) :
    ∀ (ws : List Vtx) (j : Nat),
      scanForMatch v (ws ++ ws2) j =
        match scanForMatch v ws j with
        | some k => some k
        | none => scanForMatch v ws2 (j + ws.length) := by
  intro ws
  induction ws with
  | nil => intro j; simp [scanForMatch]
  | cons w rest ih =>
      intro j
      simp only [List.cons_append, List.append_eq, scanForMatch]
      by_cases hw : sloppyVertEq v w = true
      · rw [if_pos hw, if_pos hw]
      · rw [if_neg hw, if_neg hw, ih (j + 1)]
        have : j + 1 + rest.length = j + (rest.length + 1) := by omega
        rw [this]
        rfl

theorem scanForMatch_bound (v : Vtx) :
    ∀ (ws : List Vtx) (j k : Nat),
      scanForMatch v ws j = some k → j ≤ k ∧ k < j + ws.length := by
  intro ws
  induction ws with
  | nil =>
      intro j k h
      exact absurd h (by simp [scanForMatch])
  | cons w rest ih =>
      intro j k h
      simp only [scanForMatch] at h
      by_cases hw : sloppyVertEq v w = true
      · rw [if_pos hw] at h
        obtain rfl := Option.some.inj h
        exact ⟨le_rfl, by simp only [List.length_cons]; omega⟩
      · rw [if_neg hw] at h
        obtain ⟨h1, h2⟩ := ih (j + 1) k h
        constructor
        · omega
        · simp only [List.length_cons]
          omega

theorem scanForMatch_none (v : Vtx) :
    ∀ (ws : List Vtx) (j : Nat),
      scanForMatch v ws j = none → ∀ w ∈ ws, sloppyVertEq v w = false := by
  intro ws
  induction ws with
  | nil => intro j h w hw; exact absurd hw (List.not_mem_nil w)
  | cons w0 rest ih =>
      intro j h w hw
      simp only [scanForMatch] at h
      by_cases hw0 : sloppyVertEq v w0 = true
      · rw [if_pos hw0] at h
        exact absurd h (by simp)
      · rw [if_neg hw0] at h
        rcases List.mem_cons.mp hw with rfl | hw2
        · exact Bool.eq_false_iff.mpr hw0
        · exact ih (j + 1) h w hw2

theorem rdvGo_append (ys : List Vtx) :
    ∀ (xs : List Vtx) (res : List Vtx) (map : List Nat),
      rdvGo (xs ++ ys) res map =
        rdvGo ys (rdvGo xs res map).1 (rdvGo xs res map).2 := by
  intro xs
  induction xs with
  | nil => intro res map; rfl
  | cons x rest ih =>
      intro res map
      simp only [List.cons_append, rdvGo]
      cases scanForMatch x res 0 with
      | some j => exact ih res (map ++ [j])
      | none => exact ih (res ++ [x]) (map ++ [res.length])

end CritterAI
namespace CritterAI

theorem rdv_step (xs : List Vtx) (v : Vtx) :
    removeDuplicateVerts (xs ++ [v]) =
      match scanForMatch v (removeDuplicateVerts xs).1 0 with
      | some j => ((removeDuplicateVerts xs).1, (removeDuplicateVerts xs).2 ++ [j])
      | none => ((removeDuplicateVerts xs).1 ++ [v],
          (removeDuplicateVerts xs).2 ++ [(removeDuplicateVerts xs).1.length]) := by
  unfold removeDuplicateVerts
  rw [rdvGo_append]
  simp only [rdvGo]

theorem rdv_invariant (src : List Vtx) :
    (removeDuplicateVerts src).2.length = src.length
      ∧ (∀ i, i < src.length →
          scanForMatch (src.getD i (0, 0, 0)) (removeDuplicateVerts src).1 0
            = some ((removeDuplicateVerts src).2.getD i 0))
      ∧ (∀ k, k < (removeDuplicateVerts src).1.length →
          ∃ i, i < src.length
            ∧ (removeDuplicateVerts src).2.getD i 0 = k
            ∧ (removeDuplicateVerts src).1.getD k (0, 0, 0) = src.getD i (0, 0, 0)
            ∧ ∀ i2, i2 < i → (removeDuplicateVerts src).2.getD i2 0 < k)
      ∧ (∀ k1 k2, k1 < k2 → k2 < (removeDuplicateVerts src).1.length →
          sloppyVertEq ((removeDuplicateVerts src).1.getD k2 (0, 0, 0))
            ((removeDuplicateVerts src).1.getD k1 (0, 0, 0)) = false) := by
  induction src using List.reverseRecOn with
  | nil =>
      refine ⟨rfl, ?_, ?_, ?_⟩
      · intro i hi
        exact absurd hi (by simp [removeDuplicateVerts, rdvGo])
      · intro k hk
        exact absurd hk (by simp [removeDuplicateVerts, rdvGo])
      · intro k1 k2 h12 hk
        exact absurd hk (by simp [removeDuplicateVerts, rdvGo])
  | append_singleton xs v ih =>
      obtain ⟨ihlen, ihscan, ihfirst, ihpair⟩ := ih
      have hstep := rdv_step xs v
      cases hscan : scanForMatch v (removeDuplicateVerts xs).1 0 with
      | some j =>
          rw [hscan] at hstep
          simp only [] at hstep
          have hres1 : (removeDuplicateVerts (xs ++ [v])).1 = (removeDuplicateVerts xs).1 := by
            rw [hstep]
          have hmap1 : (removeDuplicateVerts (xs ++ [v])).2
              = (removeDuplicateVerts xs).2 ++ [j] := by
            rw [hstep]
          simp only [hres1, hmap1]
          refine ⟨?_, ?_, ?_, ?_⟩
          · simp only [List.length_append, List.length_singleton, ihlen]
          · intro i hi
            simp only [List.length_append, List.length_singleton] at hi
            by_cases hix : i < xs.length
            · rw [List.getD_append _ _ _ _ hix,
                List.getD_append _ _ _ _ (by rw [ihlen]; exact hix)]
              exact ihscan i hix
            · have hieq : i = xs.length := by omega
              subst hieq
              rw [List.getD_append_right _ _ _ _ (le_refl xs.length),
                List.getD_append_right _ _ _ _ (by rw [ihlen])]
              simp only [ihlen, Nat.sub_self, List.getD_cons_zero]
              exact hscan
          · intro k hk
            obtain ⟨i, hi, hmap, hres, hmono⟩ := ihfirst k hk
            refine ⟨i, ?_, ?_, ?_, ?_⟩
            · simp only [List.length_append, List.length_singleton]
              omega
            · rw [List.getD_append _ _ _ _ (by rw [ihlen]; exact hi)]
              exact hmap
            · rw [List.getD_append _ _ _ _ hi]
              exact hres
            · intro i2 hi2
              rw [List.getD_append _ _ _ _ (by rw [ihlen]; omega)]
              exact hmono i2 hi2
          · exact ihpair
      | none =>
          rw [hscan] at hstep
          simp only [] at hstep
          have hres1 : (removeDuplicateVerts (xs ++ [v])).1
              = (removeDuplicateVerts xs).1 ++ [v] := by
            rw [hstep]
          have hmap1 : (removeDuplicateVerts (xs ++ [v])).2
              = (removeDuplicateVerts xs).2 ++ [(removeDuplicateVerts xs).1.length] := by
            rw [hstep]
          have hnone := scanForMatch_none v (removeDuplicateVerts xs).1 0 hscan
          simp only [hres1, hmap1]
          refine ⟨?_, ?_, ?_, ?_⟩
          · simp only [List.length_append, List.length_singleton, ihlen]
          · intro i hi
            simp only [List.length_append, List.length_singleton] at hi
            by_cases hix : i < xs.length
            · rw [List.getD_append _ _ _ _ hix,
                List.getD_append _ _ _ _ (by rw [ihlen]; exact hix)]
              rw [scanForMatch_append (xs.getD i (0, 0, 0)) [v] (removeDuplicateVerts xs).1 0]
              rw [ihscan i hix]
            · have hieq : i = xs.length := by omega
              subst hieq
              rw [List.getD_append_right _ _ _ _ (le_refl xs.length),
                List.getD_append_right _ _ _ _ (by rw [ihlen])]
              simp only [ihlen, Nat.sub_self, List.getD_cons_zero]
              rw [scanForMatch_append v [v] (removeDuplicateVerts xs).1 0, hscan]
              simp only [scanForMatch, sloppyVertEq_refl v, if_pos, Nat.zero_add]
          · intro k hk
            simp only [List.length_append, List.length_singleton] at hk
            by_cases hkx : k < (removeDuplicateVerts xs).1.length
            · obtain ⟨i, hi, hmap, hres, hmono⟩ := ihfirst k hkx
              refine ⟨i, ?_, ?_, ?_, ?_⟩
              · simp only [List.length_append, List.length_singleton]
                omega
              · rw [List.getD_append _ _ _ _ (by rw [ihlen]; exact hi)]
                exact hmap
              · rw [List.getD_append _ _ _ _ hkx, List.getD_append _ _ _ _ hi]
                exact hres
              · intro i2 hi2
                rw [List.getD_append _ _ _ _ (by rw [ihlen]; omega)]
                exact hmono i2 hi2
            · have hkeq : k = (removeDuplicateVerts xs).1.length := by omega
              subst hkeq
              refine ⟨xs.length, ?_, ?_, ?_, ?_⟩
              · simp only [List.length_append, List.length_singleton]
                omega
              · rw [List.getD_append_right _ _ _ _ (by rw [ihlen])]
                rw [ihlen, Nat.sub_self]
                simp only [List.getD_cons_zero]
              · rw [List.getD_append_right _ _ _ _ (le_refl _),
                  List.getD_append_right _ _ _ _ (le_refl xs.length)]
                simp only [Nat.sub_self, List.getD_cons_zero]
              · intro i2 hi2
                rw [List.getD_append _ _ _ _ (by rw [ihlen]; omega)]
                have := scanForMatch_bound (xs.getD i2 (0, 0, 0)) (removeDuplicateVerts xs).1
                  0 _ (ihscan i2 hi2)
                omega
          · intro k1 k2 h12 hk
            simp only [List.length_append, List.length_singleton] at hk
            by_cases hkx : k2 < (removeDuplicateVerts xs).1.length
            · rw [List.getD_append _ _ _ _ hkx, List.getD_append _ _ _ _ (by omega)]
              exact ihpair k1 k2 h12 hkx
            · have hkeq : k2 = (removeDuplicateVerts xs).1.length := by omega
              subst hkeq
              rw [List.getD_append_right _ _ _ _ (le_refl _)]
              simp only [Nat.sub_self, List.getD_cons_zero]
              rw [List.getD_append _ _ _ _ (by omega)]
              rw [List.getD_eq_getElem (removeDuplicateVerts xs).1 (0, 0, 0) (by omega)]
              exact hnone _ (List.getElem_mem (by omega))

end CritterAI

namespace CritterAI

theorem scanForMatch_some_spec (v : Vtx) :
    ∀ (ws : List Vtx) (j k : Nat), scanForMatch v ws j = some k →
      sloppyVertEq v (ws.getD (k - j) (0, 0, 0)) = true
        ∧ ∀ m, m < k - j → sloppyVertEq v (ws.getD m (0, 0, 0)) = false := by
  intro ws
  induction ws with
  | nil => intro j k h; exact absurd h (by simp [scanForMatch])
  | cons w rest ih =>
      intro j k h
      simp only [scanForMatch] at h
      by_cases hw : sloppyVertEq v w = true
      · rw [if_pos hw] at h
        obtain rfl := Option.some.inj h
        refine ⟨?_, ?_⟩
        · simp only [Nat.sub_self, List.getD_cons_zero]
          exact hw
        · intro m hm
          exact absurd hm (by omega)
      · rw [if_neg hw] at h
        obtain ⟨hmatch, hbelow⟩ := ih (j + 1) k h
        have hb := scanForMatch_bound v rest (j + 1) k h
        refine ⟨?_, ?_⟩
        · have hidx : k - j = (k - (j + 1)) + 1 := by omega
          rw [hidx, List.getD_cons_succ]
          exact hmatch
        · intro m hm
          cases m with
          | zero =>
              rw [List.getD_cons_zero]
              exact Bool.eq_false_iff.mpr hw
          | succ m2 =>
              rw [List.getD_cons_succ]
              exact hbelow m2 (by omega)

/-- C5 counterexample: the claimed characterization — `mapping[i] ==
mapping[j]` iff the source vertices at `i` and `j` are within the fixed
tolerance on all three axes — fails, because the tolerance relation is
not transitive.  On the three-vertex chain `chainVerts` the middle
vertex is within tolerance of both neighbours, so vertices 1 and 2 are
within tolerance of each other, yet the scan maps them to different
compacted indices (0 and 1: vertex 2 is not within tolerance of the
emitted representative, vertex 0). -/
theorem C5_dedup_counterexample :
    ¬ (∀ (src : List Vtx) (i j : Nat), i < src.length → j < src.length →
        ((removeDuplicateVerts src).2.getD i 0 = (removeDuplicateVerts src).2.getD j 0 ↔
          sloppyVertEq (src.getD i (0, 0, 0)) (src.getD j (0, 0, 0)) = true)) := by
  intro hcl
  have hmap : (removeDuplicateVerts chainVerts).2 = [0, 0, 1] := by
    norm_num [removeDuplicateVerts, rdvGo, scanForMatch, chainVerts, sloppyVertEq,
      nmgSloppyEquals, NMG_TOLERANCE]
  have h12 := (hcl chainVerts 1 2 (by simp [chainVerts]) (by simp [chainVerts])).mpr
    (by norm_num [chainVerts, sloppyVertEq, nmgSloppyEquals, NMG_TOLERANCE])
  rw [hmap] at h12
  exact absurd h12 (by decide)

/-- C5 amended: `removeDuplicateVerts` assigns every source vertex the
index of the first emitted representative vertex it is within tolerance
of (all three axes), so `mapping[i] == mapping[j]` iff the source
vertices at `i` and `j` are each within tolerance of the other's
representative — not iff they are within tolerance of each other.  The
stability half of the claim holds as stated: each compacted index is
determined by the first occurrence of its class (the representative's
source vertex), and compacted indices appear in first-occurrence order;
distinct representatives are never within tolerance of each other. -/
theorem C5_dedup_amended (src : List Vtx) :
    (removeDuplicateVerts src).2.length = src.length
      ∧ (∀ i, i < src.length →
          (removeDuplicateVerts src).2.getD i 0 < (removeDuplicateVerts src).1.length
            ∧ sloppyVertEq (src.getD i (0, 0, 0))
                ((removeDuplicateVerts src).1.getD ((removeDuplicateVerts src).2.getD i 0)
                  (0, 0, 0)) = true
            ∧ ∀ k, k < (removeDuplicateVerts src).2.getD i 0 →
                sloppyVertEq (src.getD i (0, 0, 0))
                  ((removeDuplicateVerts src).1.getD k (0, 0, 0)) = false)
      ∧ (∀ i j, i < src.length → j < src.length →
          ((removeDuplicateVerts src).2.getD i 0 = (removeDuplicateVerts src).2.getD j 0 ↔
            sloppyVertEq (src.getD i (0, 0, 0))
                ((removeDuplicateVerts src).1.getD ((removeDuplicateVerts src).2.getD j 0)
                  (0, 0, 0)) = true
              ∧ sloppyVertEq (src.getD j (0, 0, 0))
                  ((removeDuplicateVerts src).1.getD ((removeDuplicateVerts src).2.getD i 0)
                    (0, 0, 0)) = true))
      ∧ (∀ k, k < (removeDuplicateVerts src).1.length →
          ∃ i, i < src.length
            ∧ (removeDuplicateVerts src).2.getD i 0 = k
            ∧ (removeDuplicateVerts src).1.getD k (0, 0, 0) = src.getD i (0, 0, 0)
            ∧ ∀ i2, i2 < i → (removeDuplicateVerts src).2.getD i2 0 < k)
      ∧ (∀ k1 k2, k1 < k2 → k2 < (removeDuplicateVerts src).1.length →
          sloppyVertEq ((removeDuplicateVerts src).1.getD k2 (0, 0, 0))
            ((removeDuplicateVerts src).1.getD k1 (0, 0, 0)) = false) := by
  obtain ⟨hlen, hscan, hfirst, hpair⟩ := rdv_invariant src
  have hspec : ∀ i, i < src.length →
      (removeDuplicateVerts src).2.getD i 0 < (removeDuplicateVerts src).1.length
        ∧ sloppyVertEq (src.getD i (0, 0, 0))
            ((removeDuplicateVerts src).1.getD ((removeDuplicateVerts src).2.getD i 0)
              (0, 0, 0)) = true
        ∧ ∀ k, k < (removeDuplicateVerts src).2.getD i 0 →
            sloppyVertEq (src.getD i (0, 0, 0))
              ((removeDuplicateVerts src).1.getD k (0, 0, 0)) = false := by
    intro i hi
    have hs := hscan i hi
    have hb := scanForMatch_bound _ _ _ _ hs
    have hsp := scanForMatch_some_spec _ _ _ _ hs
    simp only [Nat.sub_zero] at hsp
    exact ⟨by omega, hsp.1, fun k hk => hsp.2 k hk⟩
  refine ⟨hlen, hspec, ?_, hfirst, hpair⟩
  intro i j hi hj
  constructor
  · intro hij
    obtain ⟨-, hmi, -⟩ := hspec i hi
    obtain ⟨-, hmj, -⟩ := hspec j hj
    rw [hij] at hmi
    rw [← hij] at hmj
    exact ⟨hmi, hmj⟩
  · rintro ⟨h1, h2⟩
    rcases lt_trichotomy ((removeDuplicateVerts src).2.getD i 0)
        ((removeDuplicateVerts src).2.getD j 0) with hlt | heq | hgt
    · obtain ⟨-, -, hbelow⟩ := hspec j hj
      rw [hbelow _ hlt] at h2
      exact absurd h2 (by simp)
    · exact heq
    · obtain ⟨-, -, hbelow⟩ := hspec i hi
      rw [hbelow _ hgt] at h1
      exact absurd h1 (by simp)

/-- Witness for `C5_dedup_amended` on the three-vertex chain: the map
has one entry per source vertex, and the middle source vertex is within
tolerance of the representative it is mapped to. -/
theorem C5_dedup_amended_witness :
    (removeDuplicateVerts chainVerts).2.length = chainVerts.length
      ∧ sloppyVertEq (chainVerts.getD 1 (0, 0, 0))
          ((removeDuplicateVerts chainVerts).1.getD
            ((removeDuplicateVerts chainVerts).2.getD 1 0) (0, 0, 0)) = true :=
  ⟨(C5_dedup_amended chainVerts).1,
    ((C5_dedup_amended chainVerts).2.1 1 (by simp [chainVerts])).2.1⟩

end CritterAI
namespace CritterAI

theorem readContent_some (h : Heap) (p : Option Nat) (len : Int) (c : List Byte)
    (hr : readContent h p len = some c) : 0 ≤ len ∧ c.length = len.toNat := by
  unfold readContent at hr
  cases p with
  | none => exact absurd hr (by simp)
  | some ida =>
      simp only [] at hr
      cases hg : heapGet h ida with
      | none => rw [hg] at hr; exact absurd hr (by simp)
      | some cc =>
          rw [hg] at hr
          simp only [] at hr
          split at hr
          · rename_i hcond
            obtain rfl := Option.some.inj hr
            refine ⟨hcond.1, ?_⟩
            rw [List.length_take]
            omega
          · exact absurd hr (by simp)

theorem encodeDetailHeader_length (hd : nmgPolyMeshDetailHeader) :
    (encodeDetailHeader hd).length = 28 := by
  simp [encodeDetailHeader, word4]

theorem decodeDetailHeader_encode (hd : nmgPolyMeshDetailHeader) :
    decodeDetailHeader (encodeDetailHeader hd) = hd := rfl

theorem halloc_run (hp : Heap) (s : Int) (hf : hp.failMask hp.attempts = false) :
    halloc hp s = (some hp.nextId,
      { hp with
        nextId := hp.nextId + 1
        live := (hp.nextId, List.replicate s.toNat 0) :: hp.live
        attempts := hp.attempts + 1 }) := by
  simp [halloc, hf]


theorem detailBuildRoundtrip (nm nv nt mCnt vCnt tCnt : Int) (hB : Heap)
    (r0 : nmgPolyMeshDetail) (data : List Byte) (total : Int) (mc tc vc : List Byte)
    (hr0 : r0.maxmeshes = 0)
    (hfm : ∀ n, hB.failMask n = false)
    (hdata : data = encodeDetailHeader
        ⟨nm, nv, nt, mCnt, vCnt, tCnt, NMG_POLYMESHDETAIL_VERSION⟩ ++ mc ++ tc ++ vc)
    (htotal : total = DETAIL_HEADER_SIZE + detailVertSize vCnt + detailMeshSize mCnt
        + detailTrisSize tCnt)
    (hms : 0 ≤ detailMeshSize mCnt) (hts : 0 ≤ detailTrisSize tCnt)
    (hvs : 0 ≤ detailVertSize vCnt)
    (hmcL : mc.length = (detailMeshSize mCnt).toNat)
    (htcL : tc.length = (detailTrisSize tCnt).toNat)
    (hvcL : vc.length = (detailVertSize vCnt).toNat) :
    ∃ h2, rcpdBuildFromMeshData data total (some r0) hB
        = some (true, some { r0 with
            nmeshes := nm, nverts := nv, ntris := nt
            maxmeshes := mCnt, maxverts := vCnt, maxtris := tCnt
            meshes := some hB.nextId, tris := some (hB.nextId + 1)
            verts := some (hB.nextId + 2)
            resourcetype := NMG_ALLOC_TYPE_LOCAL }, h2)
      ∧ heapGet h2 hB.nextId = some mc
      ∧ heapGet h2 (hB.nextId + 1) = some tc
      ∧ heapGet h2 (hB.nextId + 2) = some vc := by
  have hencL : (encodeDetailHeader
      ⟨nm, nv, nt, mCnt, vCnt, tCnt, NMG_POLYMESHDETAIL_VERSION⟩ : List Byte).length = 28 :=
    encodeDetailHeader_length _
  have hdl : (data.length : Int) = total := by
    rw [hdata, htotal]
    simp only [List.length_append, hencL, hmcL, htcL, hvcL, DETAIL_HEADER_SIZE]
    push_cast
    omega
  have hrb0 : readBytesI data 0 DETAIL_HEADER_SIZE
      = some (encodeDetailHeader ⟨nm, nv, nt, mCnt, vCnt, tCnt, NMG_POLYMESHDETAIL_VERSION⟩) := by
    unfold readBytesI
    rw [if_pos (by rw [DETAIL_HEADER_SIZE] at *; omega)]
    rw [hdata]
    simp only [Int.toNat_zero, List.drop_zero, DETAIL_HEADER_SIZE]
    rw [List.append_assoc, List.append_assoc]
    rw [List.take_left' (n := (28 : Int).toNat) (by simpa using hencL)]
  have hrb1 : readBytesI data DETAIL_HEADER_SIZE (detailMeshSize mCnt) = some mc := by
    unfold readBytesI
    rw [if_pos (by rw [DETAIL_HEADER_SIZE] at *; omega)]
    rw [hdata]
    rw [List.append_assoc, List.append_assoc]
    rw [List.drop_left' (n := DETAIL_HEADER_SIZE.toNat) (by simpa [DETAIL_HEADER_SIZE] using hencL)]
    rw [List.take_left' (n := (detailMeshSize mCnt).toNat) hmcL]
  have hrb2 : readBytesI data (DETAIL_HEADER_SIZE + detailMeshSize mCnt)
      (detailTrisSize tCnt) = some tc := by
    unfold readBytesI
    rw [if_pos (by rw [DETAIL_HEADER_SIZE] at *; omega)]
    rw [hdata]
    rw [List.append_assoc]
    rw [List.drop_left' (n := (DETAIL_HEADER_SIZE + detailMeshSize mCnt).toNat)
      (by simp only [List.length_append, hencL, hmcL, DETAIL_HEADER_SIZE] at *; omega)]
    rw [List.take_left' (n := (detailTrisSize tCnt).toNat) htcL]
  have hrb3 : readBytesI data (DETAIL_HEADER_SIZE + detailMeshSize mCnt + detailTrisSize tCnt)
      (detailVertSize vCnt) = some vc := by
    unfold readBytesI
    rw [if_pos (by rw [DETAIL_HEADER_SIZE] at *; omega)]
    rw [hdata]
    rw [List.drop_left' (n := (DETAIL_HEADER_SIZE + detailMeshSize mCnt + detailTrisSize tCnt).toNat)
      (by simp only [List.length_append, hencL, hmcL, htcL, DETAIL_HEADER_SIZE] at *; omega)]
    rw [← hvcL, List.take_length]
  have hne1 : hB.nextId + 1 ≠ hB.nextId := by omega
  have hne2 : hB.nextId + 2 ≠ hB.nextId := by omega
  have hne3 : hB.nextId + 2 ≠ hB.nextId + 1 := by omega
  refine ⟨heapSet (heapSet (heapSet
      (Heap.mk (hB.nextId + 3)
        ((hB.nextId + 2, List.replicate (detailVertSize vCnt).toNat 0)
          :: (hB.nextId + 1, List.replicate (detailTrisSize tCnt).toNat 0)
          :: (hB.nextId, List.replicate (detailMeshSize mCnt).toNat 0) :: hB.live)
        hB.failMask (hB.attempts + 3))
      hB.nextId mc) (hB.nextId + 1) tc) (hB.nextId + 2) vc, ?_, ?_, ?_, ?_⟩
  · simp only [rcpdBuildFromMeshData]
    rw [if_neg (by push_neg; exact ⟨hr0, by rw [DETAIL_HEADER_SIZE] at *; omega⟩)]
    rw [hrb0]
    simp only [decodeDetailHeader_encode]
    rw [if_neg (by simp [NMG_POLYMESHDETAIL_VERSION])]
    rw [if_neg (by rw [htotal]; exact lt_irrefl _)]
    rw [halloc_run hB _ (hfm _)]
    simp only []
    rw [halloc_run (Heap.mk (hB.nextId + 1)
      ((hB.nextId, List.replicate (detailMeshSize mCnt).toNat 0) :: hB.live)
      hB.failMask (hB.attempts + 1)) _ (hfm _)]
    simp only []
    rw [halloc_run (Heap.mk (hB.nextId + 2)
      ((hB.nextId + 1, List.replicate (detailTrisSize tCnt).toNat 0)
        :: (hB.nextId, List.replicate (detailMeshSize mCnt).toNat 0) :: hB.live)
      hB.failMask (hB.attempts + 2)) _ (hfm _)]
    simp only []
    rw [hrb1, hrb2, hrb3]
    rfl
  · simp only [heapGet, heapSet, List.map_cons]
    rw [List.find?_cons_of_neg _ (by simp [hne2]), List.find?_cons_of_neg _ (by simp [hne1]),
      List.find?_cons_of_pos _ (by simp)]
    simp [hne1, hne2]
  · simp only [heapGet, heapSet, List.map_cons]
    rw [List.find?_cons_of_neg _ (by simp [hne3]), List.find?_cons_of_pos _ (by simp)]
    simp [hne2, hne3]
  · simp only [heapGet, heapSet, List.map_cons]
    rw [List.find?_cons_of_pos _ (by simp)]
    simp


/-- C10: detail-mesh record serialize/deserialize round trip.  Whenever
`rcpdGetSerializedData` succeeds on a record, producing the buffer
`data` and its size `total`, running `rcpdBuildFromMeshData` on that
buffer against a fresh record (capacity `maxmeshes = 0`, so the
buffer-allocated guard passes) on any heap whose allocator does not
fail reproduces the record: the call succeeds, the element counts and
capacities equal the serialized header's counts, the resource type is
locally-owned, and the three arrays hold exactly the corresponding
regions of the serialized buffer (`meshes`, then `tris`, then `verts`,
after the 28-byte header). -/
theorem C10_detail_roundtrip (m : nmgPolyMeshDetail) (ib : Bool)
    (h hA hB : Heap) (r0 : nmgPolyMeshDetail) (data : List Byte) (total : Int)
    (hget : rcpdGetSerializedData (some m) ib h = some (true, hA, some (data, total)))
    (hr0 : r0.maxmeshes = 0)
    (hfm : ∀ n, hB.failMask n = false) :
    ∃ r1 h2,
      rcpdBuildFromMeshData data total (some r0) hB = some (true, some r1, h2)
        ∧ r1.nmeshes = m.nmeshes ∧ r1.nverts = m.nverts ∧ r1.ntris = m.ntris
        ∧ r1.maxmeshes = (if ib then m.maxmeshes else m.nmeshes)
        ∧ r1.maxverts = (if ib then m.maxverts else m.nverts)
        ∧ r1.maxtris = (if ib then m.maxtris else m.ntris)
        ∧ r1.resourcetype = NMG_ALLOC_TYPE_LOCAL
        ∧ ∃ am atr av, r1.meshes = some am ∧ r1.tris = some atr ∧ r1.verts = some av
            ∧ heapGet h2 am = some ((data.drop DETAIL_HEADER_SIZE.toNat).take
                (detailMeshSize r1.maxmeshes).toNat)
            ∧ heapGet h2 atr = some ((data.drop (DETAIL_HEADER_SIZE.toNat
                + (detailMeshSize r1.maxmeshes).toNat)).take (detailTrisSize r1.maxtris).toNat)
            ∧ heapGet h2 av = some ((data.drop (DETAIL_HEADER_SIZE.toNat
                + (detailMeshSize r1.maxmeshes).toNat
                + (detailTrisSize r1.maxtris).toNat)).take (detailVertSize r1.maxverts).toNat) := by
  simp only [rcpdGetSerializedData] at hget
  split at hget
  · exact absurd hget (by simp)
  · cases hal : halloc h (DETAIL_HEADER_SIZE
        + detailVertSize (if ib then m.maxverts else m.nverts)
        + detailMeshSize (if ib then m.maxmeshes else m.nmeshes)
        + detailTrisSize (if ib then m.maxtris else m.ntris)) with
    | mk oi hh =>
        rw [hal] at hget
        cases oi with
        | none => exact absurd hget (by simp)
        | some ida =>
            simp only [] at hget
            cases hmc : readContent hh m.meshes
                (detailMeshSize (if ib then m.maxmeshes else m.nmeshes)) with
            | none => rw [hmc] at hget; exact absurd hget (by simp)
            | some mc =>
                rw [hmc] at hget
                simp only [] at hget
                cases htc : readContent hh m.tris
                    (detailTrisSize (if ib then m.maxtris else m.ntris)) with
                | none => rw [htc] at hget; exact absurd hget (by simp)
                | some tc =>
                    rw [htc] at hget
                    simp only [] at hget
                    cases hvc : readContent hh m.verts
                        (detailVertSize (if ib then m.maxverts else m.nverts)) with
                    | none => rw [hvc] at hget; exact absurd hget (by simp)
                    | some vc =>
                        rw [hvc] at hget
                        simp only [Option.some.injEq, Prod.mk.injEq, true_and] at hget
                        obtain ⟨-, hdata, htotal⟩ := hget
                        obtain ⟨hms, hmcL⟩ := readContent_some hh m.meshes _ mc hmc
                        obtain ⟨hts, htcL⟩ := readContent_some hh m.tris _ tc htc
                        obtain ⟨hvs, hvcL⟩ := readContent_some hh m.verts _ vc hvc
                        obtain ⟨h2, hbuild, hg1, hg2, hg3⟩ :=
                          detailBuildRoundtrip m.nmeshes m.nverts m.ntris
                            (if ib then m.maxmeshes else m.nmeshes)
                            (if ib then m.maxverts else m.nverts)
                            (if ib then m.maxtris else m.ntris)
                            hB r0 data total mc tc vc hr0 hfm hdata.symm htotal.symm
                            hms hts hvs hmcL htcL hvcL
                        have hreg1 : (data.drop DETAIL_HEADER_SIZE.toNat).take
                            (detailMeshSize (if ib then m.maxmeshes else m.nmeshes)).toNat = mc := by
                          rw [← hdata]
                          rw [List.append_assoc, List.append_assoc]
                          rw [List.drop_left'
                            (by simpa [DETAIL_HEADER_SIZE] using encodeDetailHeader_length _)]
                          rw [List.take_left' hmcL]
                        have hreg2 : (data.drop (DETAIL_HEADER_SIZE.toNat
                            + (detailMeshSize (if ib then m.maxmeshes else m.nmeshes)).toNat)).take
                            (detailTrisSize (if ib then m.maxtris else m.ntris)).toNat = tc := by
                          rw [← hdata]
                          rw [List.append_assoc]
                          rw [List.drop_left'
                            (by simp only [List.length_append, hmcL, DETAIL_HEADER_SIZE]
                                simp [encodeDetailHeader, word4])]
                          rw [List.take_left' htcL]
                        have hreg3 : (data.drop (DETAIL_HEADER_SIZE.toNat
                            + (detailMeshSize (if ib then m.maxmeshes else m.nmeshes)).toNat
                            + (detailTrisSize (if ib then m.maxtris else m.ntris)).toNat)).take
                            (detailVertSize (if ib then m.maxverts else m.nverts)).toNat = vc := by
                          rw [← hdata]
                          rw [List.drop_left'
                            (by simp only [List.length_append, hmcL, htcL, DETAIL_HEADER_SIZE]
                                simp [encodeDetailHeader, word4])]
                          rw [← hvcL, List.take_length]
                        refine ⟨_, h2, hbuild, rfl, rfl, rfl, rfl, rfl, rfl, rfl,
                          hB.nextId, hB.nextId + 1, hB.nextId + 2, rfl, rfl, rfl, ?_, ?_, ?_⟩
                        · simp only []
                          rw [hreg1]
                          exact hg1
                        · simp only []
                          rw [hreg2]
                          exact hg2
                        · simp only []
                          rw [hreg3]
                          exact hg3


/-- Witness for `C10_detail_roundtrip`: the concrete one-submesh record
`exDetailMesh10` serializes to `c10data` (72 bytes) and deserializing
that buffer into the empty record reproduces the counts, capacities and
the three array regions. -/
theorem C10_detail_roundtrip_witness :
    ∃ r1 h2,
      rcpdBuildFromMeshData c10data 72 (some emptyDetailMesh) exHeap10
          = some (true, some r1, h2)
        ∧ r1.nmeshes = 1 ∧ r1.nverts = 2 ∧ r1.ntris = 1
        ∧ r1.maxmeshes = 1 ∧ r1.maxverts = 2 ∧ r1.maxtris = 1
        ∧ r1.resourcetype = NMG_ALLOC_TYPE_LOCAL
        ∧ ∃ am atr av, r1.meshes = some am ∧ r1.tris = some atr ∧ r1.verts = some av
            ∧ heapGet h2 am = some ((c10data.drop DETAIL_HEADER_SIZE.toNat).take
                (detailMeshSize r1.maxmeshes).toNat)
            ∧ heapGet h2 atr = some ((c10data.drop (DETAIL_HEADER_SIZE.toNat
                + (detailMeshSize r1.maxmeshes).toNat)).take (detailTrisSize r1.maxtris).toNat)
            ∧ heapGet h2 av = some ((c10data.drop (DETAIL_HEADER_SIZE.toNat
                + (detailMeshSize r1.maxmeshes).toNat
                + (detailTrisSize r1.maxtris).toNat)).take (detailVertSize r1.maxverts).toNat) :=
  C10_detail_roundtrip exDetailMesh10 true exHeap10 c10hA exHeap10 emptyDetailMesh
    c10data 72 rfl rfl (fun _ => rfl)

end CritterAI
